import Mathlib

/-!
Verification development for the QueryForge backend (repository `chiko`).

This file gives a shallow embedding, in Lean 4, of the role-based resource
visibility, versioning and approval logic of the repository:

* `services/auth_service.py` — `log_activity`, `get_user_accessible_resources`,
  `require_role` (the role gate decorator), `User.has_role`;
* `routes/personas.py` — `create_persona`, `update_persona`, `delete_persona`,
  `approve_persona`, `get_persona` (single-record access check);
* `routes/models.py` — `create_model`, `update_model`, `delete_model`,
  `approve_model`;
* `models/persona.py` / `models/model.py` — the row shapes of the resources
  and of their version tables.

Modelling conventions:

* The database is explicit state: each table is a Lean list of rows, threaded
  through every operation.  `db.session.commit` corresponds to returning the
  new state; an early error return leaves the state unchanged (the uncommitted
  session is discarded at request teardown, and error paths run
  `db.session.rollback`).
* Autoincrement primary keys are modelled by counters in the state; row
  timestamps (`created_at = datetime.utcnow()`) are modelled by a logical
  clock that strictly increases with each request, which is how the code uses
  them (only for `order_by(created_at.desc())`).
* JSON column values (`input_schema`, `output_schema`, `variables`,
  `configuration`) are only ever copied and compared for equality by the
  embedded routes, never inspected; they are modelled opaquely by their
  canonical serialisation as a `String` (the empty JSON object is the
  two-character string "\x7b\x7d").  Request bodies are modelled after JSON
  parsing; the `json.loads` validation branches for string-typed schema inputs
  are therefore not represented (no claim concerns malformed JSON bodies).
* Python floats (`temperature`, cost fields) are modelled as `Rat`.
* HTTP requests run one at a time (the claims quantify over sequences of
  operations); concurrency is outside the shallow embedding.
-/

namespace QueryForge

/-- Opaque model of a parsed JSON value: its canonical serialisation.
The embedded routes only copy such values and test them for equality. -/
abbrev Jv := String

/-- The empty JSON object (the default for `data.get('variables', ...)`
in `create_persona` and `data.get('configuration', ...)` in `create_model`). -/
def jEmptyObj : Jv := "\x7b\x7d"

/-- A user as the auth layer sees it: primary key and the name of its single
role (`models/user.py`, `User.role_id` → `Role.name`); `none` models a user
whose `role` relationship resolves to `None`. -/
structure User where
  id : Nat
  role : Option String
deriving DecidableEq, Repr

/-- Embeds `User.has_role` (`models/user.py` line 83):
`return self.role and self.role.name == role_name`. -/
def User.hasRole (u : User) (roleName : String) : Bool :=
  match u.role with
  | some r => r == roleName
  | none => false

/-- Embeds the `require_role` decorator for a list argument
(`services/auth_service.py` lines 24-26): the request proceeds only if
`user.role` is set and `user.role.name` is in the required list. -/
def roleGate (u : User) (required : List String) : Bool :=
  match u.role with
  | some r => required.contains r
  | none => false

/-! ### Python `int()` on the minor version component

`update_persona` / `update_model` compute the next version string with

```
major, minor, patch = latest_version.version.split('.')
new_version = f"(major).(int(minor) + 1).0"       -- braces elided
except: new_version = f"(latest_version.version).1"
```

`pyInt` models Python's `int(str)`: optional surrounding whitespace, an
optional single sign, then ASCII digits in which single underscores may occur
between digits (Python ≥ 3.6 literal grouping).  Non-ASCII digits and exotic
Unicode whitespace accepted by CPython are not modelled. -/

/-- Digits (with single underscores allowed between digits) after the first
digit has been consumed into the accumulator. -/
def pyDigitsAux : List Char → Nat → Option Nat
  | [], acc => some acc
  | '_' :: c :: cs, acc =>
    if c.isDigit then pyDigitsAux cs (acc * 10 + (c.toNat - 48)) else none
  | ['_'], _ => none
  | c :: cs, acc =>
    if c.isDigit then pyDigitsAux cs (acc * 10 + (c.toNat - 48)) else none

/-- An unsigned Python integer literal body: at least one digit, starting with
a digit. -/
def pyUnsigned : List Char → Option Nat
  | [] => none
  | c :: cs => if c.isDigit then pyDigitsAux cs (c.toNat - 48) else none

/-- Python `int(s)` (see the section comment above). -/
def pyInt (s : String) : Option Int :=
  let cs := (((s.toList.dropWhile Char.isWhitespace).reverse.dropWhile
    Char.isWhitespace).reverse)
  match cs with
  | '+' :: rest => (pyUnsigned rest).map Int.ofNat
  | '-' :: rest => (pyUnsigned rest).map (fun n => -(n : Int))
  | rest => (pyUnsigned rest).map Int.ofNat

/-- Helper for `pySplitDot`: `acc` holds the current field, reversed. -/
def pySplitDotAux : List Char → List Char → List String
  | [], acc => [String.mk acc.reverse]
  | '.' :: cs, acc => String.mk acc.reverse :: pySplitDotAux cs []
  | c :: cs, acc => pySplitDotAux cs (c :: acc)

/-- Python `s.split('.')`: fields between dots, keeping empty fields, so that
the empty string yields one empty field and a trailing dot yields a trailing
empty field. -/
def pySplitDot (s : String) : List String :=
  pySplitDotAux s.toList []

/-- Embeds the version-number computation shared verbatim by
`routes/personas.py` lines 304-308 and `routes/models.py` lines 287-291:
split the previous version string on dots into exactly three components,
convert the middle one with `int`, and emit `major.(minor+1).0`; on any
exception append `.1` to the previous string. -/
def next_version (prev : String) : String :=
  match pySplitDot prev with
  | [major, minor, _patch] =>
    match pyInt minor with
    | some m => major ++ "." ++ toString (m + 1) ++ ".0"
    | none => prev ++ ".1"
  | _ => prev ++ ".1"

/-! ### Resource rows -/

/-- A row of the `personas` table (`models/persona.py`, class `Persona`).
Timestamps are omitted: the embedded routes never branch on them for personas.
`tags` is modelled as a list of strings (the shape every caller uses). -/
structure PersonaRow where
  id : Nat
  name : String
  description : Option String
  system_prompt : String
  user_prompt_template : Option String
  input_schema : Option Jv
  output_schema : Option Jv
  visibility : String
  is_active : Bool
  is_approved : Bool
  tags : List String
  variables_ : Option Jv
  created_by : Nat
deriving DecidableEq, Repr

/-! ### Resource access policy (`services/auth_service.py`) -/

/-- Embeds `get_user_accessible_resources(user, Persona, query)` from
`services/auth_service.py` lines 175-202, with the query as a list of rows.
`Persona` has both an `is_approved` and a `created_by` attribute, so the
`hasattr` branches all succeed.  Admins see the query unchanged; a
Business User sees rows with `is_approved OR created_by == user.id`; a
Developer sees rows with `created_by == user.id OR is_approved`; any other
role (or no role) falls through every branch and sees the query unchanged. -/
def get_user_accessible_personas (user : User) (query : List PersonaRow) :
    List PersonaRow :=
  if user.hasRole "Admin" then query
  else if user.hasRole "Business User" then
    query.filter (fun r => r.is_approved || r.created_by == user.id)
  else if user.hasRole "Developer" then
    query.filter (fun r => r.created_by == user.id || r.is_approved)
  else query

/-- Embeds the access check of `get_persona` (`routes/personas.py` lines
87-90): a non-admin is denied (403) exactly when the persona is unapproved,
not their own, and has `visibility == 'private'`; `true` means the read
proceeds. -/
def get_persona_access (user : User) (p : PersonaRow) : Bool :=
  if user.hasRole "Admin" then true
  else if !p.is_approved && p.created_by != user.id then
    if p.visibility == "private" then false else true
  else true

/-- Case-insensitive substring test at the character-list level: does
`needle` occur as a prefix of `hay`? -/
def charsPrefix (needle hay : List Char) : Bool :=
  match needle, hay with
  | c :: cs, h :: hs => c == h && charsPrefix cs hs
  | [], _ => true
  | _, [] => false

/-- Does `needle` occur contiguously anywhere in `hay`? -/
def charsContains (hay needle : List Char) : Bool :=
  match hay with
  | [] => needle.isEmpty
  | _ :: t => charsPrefix needle hay || charsContains t needle

/-- SQL `column ILIKE '%pat%'`: case-insensitive substring match, as used by
the search filter of `get_personas`. -/
def ilikeContains (hay pat : String) : Bool :=
  charsContains hay.toLower.toList pat.toLower.toList

/-- Embeds the query pipeline of `get_personas` (`routes/personas.py` lines
33-51): the access filter, then the optional search / visibility / status
filters (each applied only when the request argument is non-empty).
`order_by(created_at.desc())` and pagination are not modelled; every claim
about the listing concerns membership only. -/
def get_personas_list (user : User) (records : List PersonaRow)
    (search visibilityArg statusArg : String) : List PersonaRow :=
  let q := get_user_accessible_personas user records
  let q := if search ≠ "" then
    q.filter (fun r =>
      ilikeContains r.name search ||
        ilikeContains (r.description.getD "") search)
    else q
  let q := if visibilityArg ≠ "" then
    q.filter (fun r => r.visibility == visibilityArg) else q
  if statusArg = "approved" then q.filter (fun r => r.is_approved)
  else if statusArg = "pending" then q.filter (fun r => !r.is_approved)
  else q

/-! ### Version rows

`ModelVersion` (`models/model.py`) and the version rows handled by
`routes/personas.py` share the same chain structure: parent foreign key,
version string, content snapshot, changelog, active flag, creator and
creation time.  `VRow α` captures that shared shape with the content
snapshot as the parameter; `parent_id` stands for `model_id` /
`persona_id`. -/
structure VRow (α : Type) where
  id : Nat
  parent_id : Nat
  version : String
  snapshot : α
  changelog : String
  is_active : Bool
  created_by : Nat
  created_at : Nat
deriving DecidableEq, Repr

/-- The persona content snapshot carried by a version row, as written by
`create_persona` / `update_persona` (`routes/personas.py` lines 194-204 and
313-323). -/
structure PersonaSnapshot where
  system_prompt : String
  user_prompt_template : Option String
  input_schema : Option Jv
  output_schema : Option Jv
deriving DecidableEq, Repr

/-- A persona version row as the routes read and write it.  (The class
declared in `models/persona.py` disagrees with this shape — it has
`version_number` / `change_summary` and no `is_active` column; that
divergence is the subject of claim C4 and is embedded separately below as
`create_persona_literal`.) -/
abbrev PersonaVersionRow := VRow PersonaSnapshot

/-- Embeds `order_by(created_at.desc()).first()` over a set of version rows:
the row with the greatest `created_at` (ties keep the earlier row; in every
reachable state the timestamps are pairwise distinct). -/
def maxByCreatedAt {α : Type} (vs : List (VRow α)) : Option (VRow α) :=
  vs.foldl (fun acc v =>
    match acc with
    | none => some v
    | some a => if a.created_at < v.created_at then some v else some a) none

/-- Embeds `query.filter_by(persona_id=...)` / `filter_by(model_id=...)` on a
version table: the version chain of one parent resource. -/
def chainOf {α : Type} (vs : List (VRow α)) (pid : Nat) : List (VRow α) :=
  vs.filter (fun v => v.parent_id == pid)

/-- Embeds `if latest_version: latest_version.is_active = False` as the
session sees it: the fetched row (identified by its primary key), if any, is
marked inactive in place. -/
def toggleOff {α : Type} (lvId : Nat) (v : VRow α) : VRow α :=
  if v.id == lvId then { v with is_active := false } else v

def deactivatePrev {α : Type} (vs : List (VRow α)) :
    Option (VRow α) → List (VRow α)
  | some lv => vs.map (toggleOff lv.id)
  | none => vs

/-! ### Audit log (`models/audit.py`, `services/auth_service.py`) -/

/-- The audit columns that `log_activity` fills in and that the claims
mention (request metadata and the JSON details blob are omitted). -/
structure AuditRow where
  user_id : Nat
  action : String
  resource_type : Option String
  resource_id : Option Nat
  success : Bool
deriving DecidableEq, Repr

/-- Whether the attempt to construct, add and commit the `AuditLog` row
inside `log_activity` succeeds or raises (any exception: constructor,
request access, or the commit itself). -/
inductive AuditOutcome
  | ok
  | fails
deriving DecidableEq, Repr

/-! ### Persona machine state and endpoints (`routes/personas.py`) -/

/-- The committed database state that the persona routes touch.
`activeAgentPersonaIds` records, for the in-use check of `delete_persona`,
the `persona_id` of each active `Agent` row (agents are otherwise outside
every claim).  `nextPersonaId` / `nextVersionId` model the autoincrement
primary keys and `clock` the strictly increasing request timestamp. -/
structure PState where
  personas : List PersonaRow
  versions : List PersonaVersionRow
  audit_logs : List AuditRow
  activeAgentPersonaIds : List Nat
  nextPersonaId : Nat
  nextVersionId : Nat
  clock : Nat
deriving DecidableEq, Repr

/-- The empty database. -/
def pInit : PState :=
  { personas := [], versions := [], audit_logs := [],
    activeAgentPersonaIds := [], nextPersonaId := 1, nextVersionId := 1,
    clock := 0 }

/-- Embeds `log_activity` (`services/auth_service.py` lines 60-81) on the
persona-side state.  On success the audit row is added and committed; on any
exception the handler prints, rolls the session back (discarding only the
uncommitted audit row — the enclosing operation committed beforehand) and
returns normally, so the function is total in both cases. -/
def log_activity_p (st : PState) (entry : AuditRow) (o : AuditOutcome) :
    PState :=
  match o with
  | .ok => { st with audit_logs := st.audit_logs ++ [entry] }
  | .fails => st

/-- Responses of the persona endpoints, at the granularity the claims need:
error code plus message, or the success payload (the returned
`persona.to_dict()` is a function of the row; for updates the names of the
changed fields stand for the returned `changes` dict, in its insertion
order). -/
inductive PResp
  | jsonError (code : Nat) (msg : String)
  | created (p : PersonaRow)
  | updated (p : PersonaRow) (changedFields : List String)
  | noChanges (p : PersonaRow)
  | approved (p : PersonaRow)
  | deleted
deriving DecidableEq, Repr

/-- Python truthiness of `data.get(field)` for a string field: falsy when the
key is absent or the value is the empty string (the `required_fields` check
of the create routes). -/
def strFalsy : Option String → Bool
  | none => true
  | some s => s == ""

/-- A persona create body after JSON parsing; `none` is an absent key.
An explicit JSON `null` for a key with a non-null default is not modelled. -/
structure PersonaCreateReq where
  name : Option String
  description : Option String
  system_prompt : Option String
  user_prompt_template : Option String
  input_schema : Option Jv
  output_schema : Option Jv
  visibility : Option String
  tags : Option (List String)
  variables_ : Option Jv
deriving DecidableEq, Repr

/-- Python `not data` for the parsed create body (the empty JSON object). -/
def PersonaCreateReq.noBody (r : PersonaCreateReq) : Bool :=
  r.name == none && r.description == none && r.system_prompt == none &&
  r.user_prompt_template == none && r.input_schema == none &&
  r.output_schema == none && r.visibility == none && r.tags == none &&
  r.variables_ == none

/-- The attributes declared on the `PersonaVersion` class
(`models/persona.py` lines 64-85): columns plus relationship attributes. -/
def personaVersionDeclaredAttrs : List String :=
  ["id", "persona_id", "version_number", "system_prompt",
   "user_prompt_template", "input_schema", "output_schema", "variables",
   "change_summary", "created_by", "created_at", "persona",
   "created_by_user"]

/-- The keyword arguments the persona routes pass to `PersonaVersion(...)`
(`routes/personas.py` lines 194-204 and 313-323). -/
def personaVersionCtorKwargs : List String :=
  ["persona_id", "version", "system_prompt", "user_prompt_template",
   "input_schema", "output_schema", "changelog", "is_active", "created_by"]

/-- SQLAlchemy's declarative constructor raises `TypeError` when a keyword
argument is not a declared attribute of the class. -/
def personaVersionCtorRaises : Bool :=
  personaVersionCtorKwargs.any
    (fun k => !(personaVersionDeclaredAttrs.contains k))

/-- Embeds `create_persona` (`routes/personas.py` lines 118-225): role gate,
body and required-field checks, per-user name-uniqueness check, then the
`PersonaVersion(...)` constructor call of line 194.  That call passes
keyword arguments the declared class rejects (see
`personaVersionCtorRaises`), so it raises `TypeError` and the route's
blanket handler rolls the session back — discarding the flushed but
uncommitted persona row — and returns 500 "Failed to create persona".  The
guarded else-branch is the commit the route's text describes (persona
insert, initial `1.0.0` version insert, one commit, audit call); it is
dynamically dead because `personaVersionCtorRaises` is `true`. -/
def create_persona (st : PState) (actor : User) (req : PersonaCreateReq)
    (audit : AuditOutcome) : PState × PResp :=
  if !(roleGate actor ["Admin", "Developer", "Business User"]) then
    (st, .jsonError 403 "Insufficient permissions")
  else if req.noBody then (st, .jsonError 400 "Request data is required")
  else if strFalsy req.name then (st, .jsonError 400 "name is required")
  else if strFalsy req.system_prompt then
    (st, .jsonError 400 "system_prompt is required")
  else if st.personas.any
      (fun p => p.name == req.name.getD "" && p.created_by == actor.id) then
    (st, .jsonError 400 "You already have a persona with this name")
  else if personaVersionCtorRaises then
    (st, .jsonError 500 "Failed to create persona")
  else
    let p : PersonaRow := {
      id := st.nextPersonaId
      name := req.name.getD ""
      description := req.description
      system_prompt := req.system_prompt.getD ""
      user_prompt_template := req.user_prompt_template
      input_schema := req.input_schema
      output_schema := req.output_schema
      visibility := req.visibility.getD "private"
      is_active := true
      is_approved := actor.hasRole "Admin"
      tags := req.tags.getD []
      variables_ := some (req.variables_.getD jEmptyObj)
      created_by := actor.id }
    let v : PersonaVersionRow := {
      id := st.nextVersionId
      parent_id := p.id
      version := "1.0.0"
      snapshot := {
        system_prompt := p.system_prompt
        user_prompt_template := p.user_prompt_template
        input_schema := p.input_schema
        output_schema := p.output_schema }
      changelog := "Initial version"
      is_active := true
      created_by := actor.id
      created_at := st.clock }
    let st' : PState := { st with
      personas := st.personas ++ [p]
      versions := st.versions ++ [v]
      nextPersonaId := st.nextPersonaId + 1
      nextVersionId := st.nextVersionId + 1
      clock := st.clock + 1 }
    (log_activity_p st'
      { user_id := actor.id, action := "persona_created",
        resource_type := some "persona", resource_id := some p.id,
        success := true } audit,
     .created p)

/-- A persona update body.  The outer `Option` is key presence; for nullable
columns the inner `Option` is the (possibly `null`) new value. -/
structure PersonaUpdateReq where
  name : Option String
  description : Option (Option String)
  system_prompt : Option String
  user_prompt_template : Option (Option String)
  input_schema : Option (Option Jv)
  output_schema : Option (Option Jv)
  visibility : Option String
  tags : Option (List String)
  variables_ : Option (Option Jv)
  is_approved : Option Bool
deriving DecidableEq, Repr

/-- Python `not data` for the parsed update body. -/
def PersonaUpdateReq.noBody (r : PersonaUpdateReq) : Bool :=
  r.name == none && r.description == none && r.system_prompt == none &&
  r.user_prompt_template == none && r.input_schema == none &&
  r.output_schema == none && r.visibility == none && r.tags == none &&
  r.variables_ == none && r.is_approved == none

/-- One iteration of the `for field in updatable_fields` loop: if the field
is present in the body and its value differs from the current one, set it
and append the field name to the recorded changes. -/
def applyUpd {ρ α : Type} [DecidableEq α] (cur : ρ × List String)
    (fieldName : String) (newVal : Option α) (get : ρ → α)
    (set : ρ → α → ρ) : ρ × List String :=
  match newVal with
  | none => cur
  | some v => if get cur.1 = v then cur else (set cur.1 v, cur.2 ++ [fieldName])

/-- The admin-only status-flag handling of the update routes
(`routes/personas.py` lines 285-290, `routes/models.py` lines 262-273): if
the actor is an admin and the key is present, the flag is assigned
unconditionally and the change is recorded only when the value differs. -/
def adminFlagUpd {ρ : Type} (isAdmin : Bool) (cur : ρ × List String)
    (fieldName : String) (newVal : Option Bool) (get : ρ → Bool)
    (set : ρ → Bool → ρ) : ρ × List String :=
  if isAdmin then
    match newVal with
    | some b =>
      if get cur.1 = b then (set cur.1 b, cur.2)
      else (set cur.1 b, cur.2 ++ [fieldName])
    | none => cur
  else cur

/-- The fields whose change triggers a new persona version
(`routes/personas.py` line 281). -/
def personaSignificantFields : List String :=
  ["system_prompt", "user_prompt_template", "input_schema", "output_schema"]

/-- The `for field in updatable_fields` loop of `update_persona`
(`routes/personas.py` lines 263-290), followed by the admin-only
`is_approved` change: returns the updated row and the names of the changed
fields, in recording order. -/
def personaApplyChanges (p : PersonaRow) (actor : User)
    (req : PersonaUpdateReq) : PersonaRow × List String :=
  let s1 := applyUpd (p, []) "name" req.name (·.name)
    (fun r v => { r with name := v })
  let s2 := applyUpd s1 "description" req.description (·.description)
    (fun r v => { r with description := v })
  let s3 := applyUpd s2 "system_prompt" req.system_prompt
    (·.system_prompt) (fun r v => { r with system_prompt := v })
  let s4 := applyUpd s3 "user_prompt_template" req.user_prompt_template
    (·.user_prompt_template)
    (fun r v => { r with user_prompt_template := v })
  let s5 := applyUpd s4 "input_schema" req.input_schema (·.input_schema)
    (fun r v => { r with input_schema := v })
  let s6 := applyUpd s5 "output_schema" req.output_schema
    (·.output_schema) (fun r v => { r with output_schema := v })
  let s7 := applyUpd s6 "visibility" req.visibility (·.visibility)
    (fun r v => { r with visibility := v })
  let s8 := applyUpd s7 "tags" req.tags (·.tags)
    (fun r v => { r with tags := v })
  let s9 := applyUpd s8 "variables" req.variables_ (·.variables_)
    (fun r v => { r with variables_ := v })
  adminFlagUpd (actor.hasRole "Admin") s9 "is_approved" req.is_approved
    (·.is_approved) (fun r v => { r with is_approved := v })

/-- Embeds `update_persona` (`routes/personas.py` lines 227-357): role gate,
then the lookup — `get_or_404` raises werkzeug's `NotFound` on a missing
row, which the route's blanket `except Exception` catches and turns into a
500 "Failed to update persona" — ownership check for non-admins, body
check, name conflict check, the field loop in `updatable_fields` order,
the admin-only `is_approved` change, and — when at least one significant
field changed — the `PersonaVersion(...)` constructor call of line 313.
As in `create_persona` that call raises `TypeError` on its rejected
keyword arguments, the handler rolls back every uncommitted field
assignment and returns 500; the guarded else-branch is the dynamically
dead chain step the route's text describes (fetch the latest version by
`created_at` descending, compute the next version string, insert the new
active version and deactivate the previous one, one commit). -/
def update_persona (st : PState) (actor : User) (pid : Nat)
    (req : PersonaUpdateReq) (audit : AuditOutcome) : PState × PResp :=
  if !(roleGate actor ["Admin", "Developer", "Business User"]) then
    (st, .jsonError 403 "Insufficient permissions")
  else
    match st.personas.find? (fun p => p.id == pid) with
    | none => (st, .jsonError 500 "Failed to update persona")
    | some p =>
      if !(actor.hasRole "Admin") && p.created_by != actor.id then
        (st, .jsonError 403 "Access denied")
      else if req.noBody then (st, .jsonError 400 "Request data is required")
      else if (match req.name with
        | some n => n != p.name && st.personas.any
            (fun q => q.name == n && q.created_by == actor.id)
        | none => false) then
        (st, .jsonError 400 "You already have a persona with this name")
      else
        let pc := personaApplyChanges p actor req
        let p' := pc.1
        let changed := pc.2
        if changed.isEmpty then (st, .noChanges p)
        else
          let significant :=
            changed.any (fun f => personaSignificantFields.contains f)
          if significant then
            if personaVersionCtorRaises then
              (st, .jsonError 500 "Failed to update persona")
            else
            let latest := maxByCreatedAt (chainOf st.versions pid)
            let newVersionStr := match latest with
              | some lv => next_version lv.version
              | none => "1.0.0"
            let newRow : PersonaVersionRow := {
              id := st.nextVersionId
              parent_id := pid
              version := newVersionStr
              snapshot := {
                system_prompt := p'.system_prompt
                user_prompt_template := p'.user_prompt_template
                input_schema := p'.input_schema
                output_schema := p'.output_schema }
              changelog := "Updated: " ++ String.intercalate ", "
                (changed.filter (fun f => personaSignificantFields.contains f))
              is_active := true
              created_by := actor.id
              created_at := st.clock }
            let versions' := deactivatePrev st.versions latest ++ [newRow]
            let st' : PState := { st with
              personas := st.personas.map
                (fun q => if q.id == pid then p' else q)
              versions := versions'
              nextVersionId := st.nextVersionId + 1
              clock := st.clock + 1 }
            (log_activity_p st'
              { user_id := actor.id, action := "persona_updated",
                resource_type := some "persona", resource_id := some pid,
                success := true } audit,
             .updated p' changed)
          else
            let st' : PState := { st with
              personas := st.personas.map
                (fun q => if q.id == pid then p' else q)
              clock := st.clock + 1 }
            (log_activity_p st'
              { user_id := actor.id, action := "persona_updated",
                resource_type := some "persona", resource_id := some pid,
                success := true } audit,
             .updated p' changed)

/-- Embeds `delete_persona` (`routes/personas.py` lines 359-405): role gate,
the lookup (the `NotFound` of a missing id is caught by the blanket
`except Exception` and surfaced as 500 "Failed to delete persona"),
ownership check, the active-agent in-use check, then deletion of the
version rows and the persona in one commit. -/
def delete_persona (st : PState) (actor : User) (pid : Nat)
    (audit : AuditOutcome) : PState × PResp :=
  if !(roleGate actor ["Admin", "Developer", "Business User"]) then
    (st, .jsonError 403 "Insufficient permissions")
  else
    match st.personas.find? (fun p => p.id == pid) with
    | none => (st, .jsonError 500 "Failed to delete persona")
    | some p =>
      if !(actor.hasRole "Admin") && p.created_by != actor.id then
        (st, .jsonError 403 "Access denied")
      else if 0 < st.activeAgentPersonaIds.count pid then
        (st, .jsonError 400 ("Cannot delete persona. It is being used by " ++
          toString (st.activeAgentPersonaIds.count pid) ++ " active agent(s)"))
      else
        let st' : PState := { st with
          personas := st.personas.filter (fun q => !(q.id == pid))
          versions := st.versions.filter (fun v => !(v.parent_id == pid))
          clock := st.clock + 1 }
        (log_activity_p st'
          { user_id := actor.id, action := "persona_deleted",
            resource_type := some "persona", resource_id := some pid,
            success := true } audit,
         .deleted)

/-- Embeds `approve_persona` (`routes/personas.py` lines 407-440): Admin-only
role gate, the lookup (a missing id becomes 500 "Failed to approve
persona" through the blanket handler), then a 400 "already approved" error
when the flag is already set (before any mutation), otherwise set
`is_approved` and commit. -/
def approve_persona (st : PState) (actor : User) (pid : Nat)
    (audit : AuditOutcome) : PState × PResp :=
  if !(roleGate actor ["Admin"]) then
    (st, .jsonError 403 "Insufficient permissions")
  else
    match st.personas.find? (fun p => p.id == pid) with
    | none => (st, .jsonError 500 "Failed to approve persona")
    | some p =>
      if p.is_approved then
        (st, .jsonError 400 "Persona is already approved")
      else
        let p' := { p with is_approved := true }
        let st' : PState := { st with
          personas := st.personas.map (fun q => if q.id == pid then p' else q)
          clock := st.clock + 1 }
        (log_activity_p st'
          { user_id := actor.id, action := "persona_approved",
            resource_type := some "persona", resource_id := some pid,
            success := true } audit,
         .approved p')

/-! ### Model machine state and endpoints (`routes/models.py`) -/

/-- The float literal `0.1`, the `temperature` default of `create_model`
(`routes/models.py` line 175), written as an explicit reduced fraction so
that the machine evaluates by kernel reduction (the decimal-literal
elaboration of `Rat` normalises through `Nat.gcd`, which does not
kernel-reduce). -/
def ratPointOne : Rat := ⟨1, 10, by decide, Nat.coprime_one_left 10⟩

/-- The float `0.5`, used as a sample temperature in concrete traces. -/
def ratHalf : Rat := ⟨1, 2, by decide, Nat.coprime_one_left 2⟩

/-- A row of the `models` table (`models/model.py`, class `Model`);
timestamps omitted as for personas. -/
structure ModelRow where
  id : Nat
  name : String
  provider : String
  deployment_id : Option String
  model_name : String
  api_endpoint : Option String
  api_version : Option String
  context_window : Option Int
  max_tokens : Option Int
  temperature : Option Rat
  input_cost_per_token : Option Rat
  output_cost_per_token : Option Rat
  is_active : Bool
  is_approved : Bool
  approval_stage : String
  description : Option String
  tags : List String
  configuration : Option Jv
  created_by : Nat
deriving DecidableEq, Repr

/-- The JSON dict stored in `ModelVersion.configuration`.  `create_model`
and `update_model` build dicts with different key sets, so the snapshot is a
sum: `createSnap` carries `deployment_id / model_name / api_endpoint /
api_version / max_tokens / temperature` (lines 147-154), `updateSnap`
carries `api_endpoint / api_version / max_tokens / temperature /
configuration` (lines 299-305).  Dicts with different key sets are never
equal, matching the constructor distinction. -/
inductive MVConfig
  | createSnap (deployment_id : Option String) (model_name : String)
      (api_endpoint : Option String) (api_version : Option String)
      (max_tokens : Option Int) (temperature : Option Rat)
  | updateSnap (api_endpoint : Option String) (api_version : Option String)
      (max_tokens : Option Int) (temperature : Option Rat)
      (configuration : Option Jv)
deriving DecidableEq, Repr

/-- A `ModelVersion` row (`models/model.py` lines 70-92); this class, unlike
`PersonaVersion`, declares exactly the attributes the routes use. -/
abbrev ModelVersionRow := VRow MVConfig

/-- The committed database state that the model routes touch;
`activeAgentModelIds` plays the same part as for personas. -/
structure MState where
  models : List ModelRow
  versions : List ModelVersionRow
  audit_logs : List AuditRow
  activeAgentModelIds : List Nat
  nextModelId : Nat
  nextVersionId : Nat
  clock : Nat
deriving DecidableEq, Repr

/-- The empty database. -/
def mInit : MState :=
  { models := [], versions := [], audit_logs := [],
    activeAgentModelIds := [], nextModelId := 1, nextVersionId := 1,
    clock := 0 }

/-- The same `log_activity` embedding as `log_activity_p`, on the model-side
state. -/
def log_activity_m (st : MState) (entry : AuditRow) (o : AuditOutcome) :
    MState :=
  match o with
  | .ok => { st with audit_logs := st.audit_logs ++ [entry] }
  | .fails => st

/-- Responses of the model endpoints (same granularity as `PResp`). -/
inductive MResp
  | jsonError (code : Nat) (msg : String)
  | created (m : ModelRow)
  | updated (m : ModelRow) (changedFields : List String)
  | noChanges (m : ModelRow)
  | approved (m : ModelRow)
  | deleted
deriving DecidableEq, Repr

/-- A model create body after JSON parsing. -/
structure ModelCreateReq where
  name : Option String
  provider : Option String
  deployment_id : Option String
  model_name : Option String
  api_endpoint : Option String
  api_version : Option String
  context_window : Option Int
  max_tokens : Option Int
  temperature : Option Rat
  input_cost_per_token : Option Rat
  output_cost_per_token : Option Rat
  description : Option String
  tags : Option (List String)
  configuration : Option Jv
deriving DecidableEq, Repr

/-- Python `not data` for the parsed model create body. -/
def ModelCreateReq.noBody (r : ModelCreateReq) : Bool :=
  r.name == none && r.provider == none && r.deployment_id == none &&
  r.model_name == none && r.api_endpoint == none && r.api_version == none &&
  r.context_window == none && r.max_tokens == none &&
  r.temperature == none && r.input_cost_per_token == none &&
  r.output_cost_per_token == none && r.description == none &&
  r.tags == none && r.configuration == none

/-- Embeds `llm_service._validate_azure_config` on the `model_config` dict
built by `create_model`: errors (and hence invalidity) arise when
`api_endpoint` or `deployment_id` is falsy, or when the always-present
`max_tokens` / `temperature` entries hold `None`, on which `float(...)`
raises (`context_window` is not a key of that dict, so its numeric check
never runs; URL-format and range problems are only warnings). -/
def azure_config_valid (deployment_id api_endpoint : Option String)
    (max_tokens : Option Int) (temperature : Option Rat) : Bool :=
  !(strFalsy api_endpoint) && !(strFalsy deployment_id) &&
    max_tokens != none && temperature != none

/-- Embeds `create_model` (`routes/models.py` lines 122-217): role gate
(Admin / Developer only), body and required-field checks, global
name-uniqueness check, provider-specific validation — for
`azure_openai` the checks of `azure_config_valid`; for `openai`,
`validate_model_config` itself raises `ValueError` (`llm_service.py` line
407), which the route's blanket handler turns into a 500 — then the model
insert with `temperature` defaulting to `0.1`, the initial `1.0.0` version
insert whose snapshot is the `model_config` dict (with the temperature as
sent, possibly `None`), one commit, and the audit call. -/
def create_model (st : MState) (actor : User) (req : ModelCreateReq)
    (audit : AuditOutcome) : MState × MResp :=
  if !(roleGate actor ["Admin", "Developer"]) then
    (st, .jsonError 403 "Insufficient permissions")
  else if req.noBody then (st, .jsonError 400 "Request data is required")
  else if strFalsy req.name then (st, .jsonError 400 "name is required")
  else if strFalsy req.provider then
    (st, .jsonError 400 "provider is required")
  else if strFalsy req.model_name then
    (st, .jsonError 400 "model_name is required")
  else if st.models.any (fun m => m.name == req.name.getD "") then
    (st, .jsonError 400 "Model with this name already exists")
  else if req.provider.getD "" == "azure_openai" &&
      !(azure_config_valid req.deployment_id req.api_endpoint
        req.max_tokens req.temperature) then
    (st, .jsonError 400 "Invalid model configuration")
  else if req.provider.getD "" == "openai" then
    (st, .jsonError 500 "Failed to create model")
  else
    let m : ModelRow := {
      id := st.nextModelId
      name := req.name.getD ""
      provider := req.provider.getD ""
      deployment_id := req.deployment_id
      model_name := req.model_name.getD ""
      api_endpoint := req.api_endpoint
      api_version := req.api_version
      context_window := req.context_window
      max_tokens := req.max_tokens
      temperature := some (req.temperature.getD ratPointOne)
      input_cost_per_token := req.input_cost_per_token
      output_cost_per_token := req.output_cost_per_token
      is_active := true
      is_approved := actor.hasRole "Admin"
      approval_stage := "draft"
      description := req.description
      tags := req.tags.getD []
      configuration := some (req.configuration.getD jEmptyObj)
      created_by := actor.id }
    let v : ModelVersionRow := {
      id := st.nextVersionId
      parent_id := m.id
      version := "1.0.0"
      snapshot := .createSnap req.deployment_id (req.model_name.getD "")
        req.api_endpoint req.api_version req.max_tokens req.temperature
      changelog := "Initial version"
      is_active := true
      created_by := actor.id
      created_at := st.clock }
    let st' : MState := { st with
      models := st.models ++ [m]
      versions := st.versions ++ [v]
      nextModelId := st.nextModelId + 1
      nextVersionId := st.nextVersionId + 1
      clock := st.clock + 1 }
    (log_activity_m st'
      { user_id := actor.id, action := "model_created",
        resource_type := some "model", resource_id := some m.id,
        success := true } audit,
     .created m)

/-- A model update body (outer `Option` is key presence). -/
structure ModelUpdateReq where
  name : Option String
  description : Option (Option String)
  api_endpoint : Option (Option String)
  api_version : Option (Option String)
  context_window : Option (Option Int)
  max_tokens : Option (Option Int)
  temperature : Option (Option Rat)
  input_cost_per_token : Option (Option Rat)
  output_cost_per_token : Option (Option Rat)
  tags : Option (List String)
  configuration : Option (Option Jv)
  is_active : Option Bool
  is_approved : Option Bool
deriving DecidableEq, Repr

/-- Python `not data` for the parsed model update body. -/
def ModelUpdateReq.noBody (r : ModelUpdateReq) : Bool :=
  r.name == none && r.description == none && r.api_endpoint == none &&
  r.api_version == none && r.context_window == none &&
  r.max_tokens == none && r.temperature == none &&
  r.input_cost_per_token == none && r.output_cost_per_token == none &&
  r.tags == none && r.configuration == none && r.is_active == none &&
  r.is_approved == none

/-- The fields whose change triggers a new model version
(`routes/models.py` line 279). -/
def modelSignificantFields : List String :=
  ["api_endpoint", "configuration", "max_tokens", "temperature"]

/-- The `for field in updatable_fields` loop of `update_model`
(`routes/models.py` lines 252-259), followed by the admin-only `is_active`
and `is_approved` changes (lines 262-273). -/
def modelApplyChanges (m : ModelRow) (actor : User) (req : ModelUpdateReq) :
    ModelRow × List String :=
  let s1 := applyUpd (m, []) "name" req.name (·.name)
    (fun r v => { r with name := v })
  let s2 := applyUpd s1 "description" req.description (·.description)
    (fun r v => { r with description := v })
  let s3 := applyUpd s2 "api_endpoint" req.api_endpoint (·.api_endpoint)
    (fun r v => { r with api_endpoint := v })
  let s4 := applyUpd s3 "api_version" req.api_version (·.api_version)
    (fun r v => { r with api_version := v })
  let s5 := applyUpd s4 "context_window" req.context_window
    (·.context_window) (fun r v => { r with context_window := v })
  let s6 := applyUpd s5 "max_tokens" req.max_tokens (·.max_tokens)
    (fun r v => { r with max_tokens := v })
  let s7 := applyUpd s6 "temperature" req.temperature (·.temperature)
    (fun r v => { r with temperature := v })
  let s8 := applyUpd s7 "input_cost_per_token" req.input_cost_per_token
    (·.input_cost_per_token)
    (fun r v => { r with input_cost_per_token := v })
  let s9 := applyUpd s8 "output_cost_per_token"
    req.output_cost_per_token (·.output_cost_per_token)
    (fun r v => { r with output_cost_per_token := v })
  let s10 := applyUpd s9 "tags" req.tags (·.tags)
    (fun r v => { r with tags := v })
  let s11 := applyUpd s10 "configuration" req.configuration
    (·.configuration) (fun r v => { r with configuration := v })
  let s12 := adminFlagUpd (actor.hasRole "Admin") s11 "is_active"
    req.is_active (·.is_active) (fun r v => { r with is_active := v })
  adminFlagUpd (actor.hasRole "Admin") s12 "is_approved" req.is_approved
    (·.is_approved) (fun r v => { r with is_approved := v })

/-- Embeds `update_model` (`routes/models.py` lines 219-342): role gate
(Admin / Developer), the lookup (a missing id becomes 500 "Failed to
update model" through the blanket handler), ownership check, body check, global name
conflict check, the field loop in `updatable_fields` order, the admin-only
`is_active` / `is_approved` changes, and the version-chain step when one of
`api_endpoint` / `configuration` / `max_tokens` / `temperature` changed
(the changelog joins all changed field names, not only significant ones). -/
def update_model (st : MState) (actor : User) (mid : Nat)
    (req : ModelUpdateReq) (audit : AuditOutcome) : MState × MResp :=
  if !(roleGate actor ["Admin", "Developer"]) then
    (st, .jsonError 403 "Insufficient permissions")
  else
    match st.models.find? (fun m => m.id == mid) with
    | none => (st, .jsonError 500 "Failed to update model")
    | some m =>
      if !(actor.hasRole "Admin") && m.created_by != actor.id then
        (st, .jsonError 403 "Access denied")
      else if req.noBody then (st, .jsonError 400 "Request data is required")
      else if (match req.name with
        | some n => n != m.name && st.models.any (fun q => q.name == n)
        | none => false) then
        (st, .jsonError 400 "Model with this name already exists")
      else
        let mc := modelApplyChanges m actor req
        let m' := mc.1
        let changed := mc.2
        if changed.isEmpty then (st, .noChanges m)
        else
          let significant :=
            modelSignificantFields.any (fun f => changed.contains f)
          if significant then
            let latest := maxByCreatedAt (chainOf st.versions mid)
            let newVersionStr := match latest with
              | some lv => next_version lv.version
              | none => "1.0.0"
            let newRow : ModelVersionRow := {
              id := st.nextVersionId
              parent_id := mid
              version := newVersionStr
              snapshot := .updateSnap m'.api_endpoint m'.api_version
                m'.max_tokens m'.temperature m'.configuration
              changelog := "Updated: " ++ String.intercalate ", " changed
              is_active := true
              created_by := actor.id
              created_at := st.clock }
            let versions' := deactivatePrev st.versions latest ++ [newRow]
            let st' : MState := { st with
              models := st.models.map (fun q => if q.id == mid then m' else q)
              versions := versions'
              nextVersionId := st.nextVersionId + 1
              clock := st.clock + 1 }
            (log_activity_m st'
              { user_id := actor.id, action := "model_updated",
                resource_type := some "model", resource_id := some mid,
                success := true } audit,
             .updated m' changed)
          else
            let st' : MState := { st with
              models := st.models.map (fun q => if q.id == mid then m' else q)
              clock := st.clock + 1 }
            (log_activity_m st'
              { user_id := actor.id, action := "model_updated",
                resource_type := some "model", resource_id := some mid,
                success := true } audit,
             .updated m' changed)

/-- Embeds `delete_model` (`routes/models.py` lines 344-390); a missing id
becomes 500 "Failed to delete model" through the blanket handler. -/
def delete_model (st : MState) (actor : User) (mid : Nat)
    (audit : AuditOutcome) : MState × MResp :=
  if !(roleGate actor ["Admin", "Developer"]) then
    (st, .jsonError 403 "Insufficient permissions")
  else
    match st.models.find? (fun m => m.id == mid) with
    | none => (st, .jsonError 500 "Failed to delete model")
    | some m =>
      if !(actor.hasRole "Admin") && m.created_by != actor.id then
        (st, .jsonError 403 "Access denied")
      else if 0 < st.activeAgentModelIds.count mid then
        (st, .jsonError 400 ("Cannot delete model. It is being used by " ++
          toString (st.activeAgentModelIds.count mid) ++ " active agent(s)"))
      else
        let st' : MState := { st with
          models := st.models.filter (fun q => !(q.id == mid))
          versions := st.versions.filter (fun v => !(v.parent_id == mid))
          clock := st.clock + 1 }
        (log_activity_m st'
          { user_id := actor.id, action := "model_deleted",
            resource_type := some "model", resource_id := some mid,
            success := true } audit,
         .deleted)

/-- Embeds `approve_model` (`routes/models.py` lines 426-459); a missing id
becomes 500 "Failed to approve model" through the blanket handler. -/
def approve_model (st : MState) (actor : User) (mid : Nat)
    (audit : AuditOutcome) : MState × MResp :=
  if !(roleGate actor ["Admin"]) then
    (st, .jsonError 403 "Insufficient permissions")
  else
    match st.models.find? (fun m => m.id == mid) with
    | none => (st, .jsonError 500 "Failed to approve model")
    | some m =>
      if m.is_approved then
        (st, .jsonError 400 "Model is already approved")
      else
        let m' := { m with is_approved := true }
        let st' : MState := { st with
          models := st.models.map (fun q => if q.id == mid then m' else q)
          clock := st.clock + 1 }
        (log_activity_m st'
          { user_id := actor.id, action := "model_approved",
            resource_type := some "model", resource_id := some mid,
            success := true } audit,
         .approved m')

/-! ### The version-chain invariant

Both update routes perform the same chain step: fetch the latest version row
of that resource by `created_at` descending, mark it inactive, and insert a
fresh active row stamped with the current time.  The following layer proves,
generically in the snapshot type, that this step keeps every resource's
chain in the shape "all rows inactive except the last-created one". -/

/-- The head (if any) is the unique active row. -/
def activeHead {α : Type} : List (VRow α) → Prop
  | [] => True
  | l :: rest => l.is_active = true ∧ ∀ v ∈ rest, v.is_active = false

/-- A well-formed chain: reading newest-first, the newest row is active and
every other row is inactive.  (Empty chains are well-formed.) -/
def chainOK {α : Type} (vs : List (VRow α)) : Prop :=
  activeHead vs.reverse

/-- Invariant of a whole version table: primary keys are strictly increasing
along the list and below the autoincrement counter, creation times are
strictly increasing along the list and below the clock, and every
resource's chain is well-formed. -/
structure VTableInv {α : Type} (vs : List (VRow α)) (nextId clock : Nat) :
    Prop where
  idBound : ∀ v ∈ vs, v.id < nextId
  idSorted : vs.Pairwise (fun a b => a.id < b.id)
  timeBound : ∀ v ∈ vs, v.created_at < clock
  timeSorted : vs.Pairwise (fun a b => a.created_at < b.created_at)
  chains : ∀ pid, chainOK (chainOf vs pid)

/-! ### Reachable-state invariant of the persona machine -/

/-- Invariant of the persona database: the version table is well-formed and
all parent references (and persona primary keys) are below the persona
autoincrement counter. -/
structure PInv (st : PState) : Prop where
  table : VTableInv st.versions st.nextVersionId st.clock
  parentBound : ∀ v ∈ st.versions, v.parent_id < st.nextPersonaId
  personaBound : ∀ p ∈ st.personas, p.id < st.nextPersonaId

/-! ### Reachable-state invariant of the model machine -/

/-- Invariant of the model database, the mirror image of `PInv`. -/
structure MInv (st : MState) : Prop where
  table : VTableInv st.versions st.nextVersionId st.clock
  parentBound : ∀ v ∈ st.versions, v.parent_id < st.nextModelId
  modelBound : ∀ m ∈ st.models, m.id < st.nextModelId

/-! ### Operation sequences -/

/-- A create or update request against the persona endpoints, with its
actor, body and audit outcome. -/
inductive POp where
  | createOp (actor : User) (req : PersonaCreateReq) (audit : AuditOutcome)
  | updateOp (actor : User) (pid : Nat) (req : PersonaUpdateReq)
      (audit : AuditOutcome)
deriving Repr

/-- Run one persona operation (the state component of the endpoint). -/
def pStep (st : PState) : POp → PState
  | .createOp a r o => (create_persona st a r o).1
  | .updateOp a pid r o => (update_persona st a pid r o).1

/-- Run a sequence of persona operations from the empty database. -/
def pRun (ops : List POp) : PState :=
  ops.foldl pStep pInit

/-- A create or update request against the model endpoints. -/
inductive MOp where
  | createOp (actor : User) (req : ModelCreateReq) (audit : AuditOutcome)
  | updateOp (actor : User) (mid : Nat) (req : ModelUpdateReq)
      (audit : AuditOutcome)
deriving Repr

/-- Run one model operation. -/
def mStep (st : MState) : MOp → MState
  | .createOp a r o => (create_model st a r o).1
  | .updateOp a mid r o => (update_model st a mid r o).1

/-- Run a sequence of model operations from the empty database. -/
def mRun (ops : List MOp) : MState :=
  ops.foldl mStep mInit

/-- Sample fixtures: an admin, a developer who owns the test persona, a
business user, and a user with an unrecognised role. -/
def uAdmin : User := { id := 1, role := some "Admin" }

def uDev : User := { id := 7, role := some "Developer" }

def uBiz : User := { id := 9, role := some "Business User" }

def uGuest : User := { id := 3, role := some "Guest" }

/-- Scenario A of the spec: Developer 7 creates persona "Reviewer" with
`system_prompt = "X"`. -/
def reqReviewer : PersonaCreateReq :=
  { name := some "Reviewer", description := none,
    system_prompt := some "X", user_prompt_template := none,
    input_schema := none, output_schema := none, visibility := none,
    tags := none, variables_ := none }

/-- Scenario C of the spec: the owner changes `system_prompt` to "Y". -/
def updPromptY : PersonaUpdateReq :=
  { name := none, description := none, system_prompt := some "Y",
    user_prompt_template := none, input_schema := none,
    output_schema := none, visibility := none, tags := none,
    variables_ := none, is_approved := none }

/-- A model create request with a provider outside the validated set and no
temperature. -/
def reqModelM1 : ModelCreateReq :=
  { name := some "M1", provider := some "anthropic",
    deployment_id := none, model_name := some "claude-3",
    api_endpoint := none, api_version := none, context_window := none,
    max_tokens := none, temperature := none, input_cost_per_token := none,
    output_cost_per_token := none, description := none, tags := none,
    configuration := none }

/-- A model update changing only `temperature` (a significant field). -/
def updModelTemp : ModelUpdateReq :=
  { name := none, description := none, api_endpoint := none,
    api_version := none, context_window := none, max_tokens := none,
    temperature := some (some ratHalf), input_cost_per_token := none,
    output_cost_per_token := none, tags := none, configuration := none,
    is_active := none, is_approved := none }

/-- A second developer, who owns nothing in the seeded states. -/
def uDev2 : User := { id := 8, role := some "Developer" }

/-- A persona update changing only `visibility` (not a significant field,
so it commits without touching the version table). -/
def updVisPublic : PersonaUpdateReq :=
  { name := none, description := none, system_prompt := none,
    user_prompt_template := none, input_schema := none,
    output_schema := none, visibility := some "public", tags := none,
    variables_ := none, is_approved := none }

/-- The `1.0.0` row committed by the admin's create of model "M1". -/
def mvRowA : ModelVersionRow :=
  { id := 1, parent_id := 1, version := "1.0.0",
    snapshot := .createSnap none "claude-3" none none none none,
    changelog := "Initial version", is_active := true, created_by := 1,
    created_at := 0 }

/-- The `1.1.0` row inserted by the admin's temperature update of "M1". -/
def mvRowB : ModelVersionRow :=
  { id := 2, parent_id := 1, version := "1.1.0",
    snapshot := .updateSnap none none none (some ratHalf) (some jEmptyObj),
    changelog := "Updated: temperature", is_active := true,
    created_by := 1, created_at := 1 }

/-! ### Access-policy facts -/

/-- Embeds `get_user_accessible_resources(user, Model, query)`: `Model`
also has both `is_approved` and `created_by`, so the function specialises
to the same filters as for personas. -/
def get_user_accessible_models (user : User) (query : List ModelRow) :
    List ModelRow :=
  if user.hasRole "Admin" then query
  else if user.hasRole "Business User" then
    query.filter (fun r => r.is_approved || r.created_by == user.id)
  else if user.hasRole "Developer" then
    query.filter (fun r => r.created_by == user.id || r.is_approved)
  else query

/-- An unapproved, public-visibility persona owned by user 2. -/
def rPublicUnapproved : PersonaRow :=
  { id := 4, name := "Pub", description := none, system_prompt := "S",
    user_prompt_template := none, input_schema := none,
    output_schema := none, visibility := "public", is_active := true,
    is_approved := false, tags := [], variables_ := none, created_by := 2 }

/-- An unapproved, team-visibility persona owned by user 2. -/
def pTeamUnapproved : PersonaRow :=
  { id := 5, name := "Team", description := none, system_prompt := "S",
    user_prompt_template := none, input_schema := none,
    output_schema := none, visibility := "team", is_active := true,
    is_approved := false, tags := [], variables_ := none, created_by := 2 }

/-! ### The approve endpoints -/

/-- Whether a persona response is a success (HTTP 2xx) response. -/
def PResp.isSuccess : PResp → Bool
  | .jsonError _ _ => false
  | _ => true

/-- Whether a model response is a success (HTTP 2xx) response. -/
def MResp.isSuccess : MResp → Bool
  | .jsonError _ _ => false
  | _ => true

/-- The persona row Scenario A intends (Developer 7's "Reviewer" with
system prompt "X", not auto-approved).  The API cannot commit it — every
create dies in the `PersonaVersion` `TypeError` — so concrete statements
about the persona handlers place it in the database directly, as seed data
would. -/
def pRowA : PersonaRow :=
  { id := 1, name := "Reviewer", description := none, system_prompt := "X",
    user_prompt_template := none, input_schema := none,
    output_schema := none, visibility := "private", is_active := true,
    is_approved := false, tags := [], variables_ := some jEmptyObj,
    created_by := 7 }

/-- A database seeded with `pRowA` only. -/
def pStateSeed : PState :=
  { personas := [pRowA], versions := [], audit_logs := [],
    activeAgentPersonaIds := [], nextPersonaId := 2, nextVersionId := 1,
    clock := 1 }

/-- A persona owned by the Business User 9. -/
def pRowBiz : PersonaRow :=
  { id := 1, name := "BizHelper", description := none,
    system_prompt := "S", user_prompt_template := none,
    input_schema := none, output_schema := none, visibility := "private",
    is_active := true, is_approved := false, tags := [],
    variables_ := some jEmptyObj, created_by := 9 }

/-- A database seeded with `pRowBiz` only. -/
def pStateBiz : PState :=
  { personas := [pRowBiz], versions := [], audit_logs := [],
    activeAgentPersonaIds := [], nextPersonaId := 2, nextVersionId := 1,
    clock := 1 }

/-- A model row owned by Developer 7, as the API itself commits it. -/
def mRowSeed : ModelRow :=
  { id := 1, name := "M1", provider := "anthropic", deployment_id := none,
    model_name := "claude-3", api_endpoint := none, api_version := none,
    context_window := none, max_tokens := none,
    temperature := some ratPointOne, input_cost_per_token := none,
    output_cost_per_token := none, is_active := true, is_approved := false,
    approval_stage := "draft", description := none, tags := [],
    configuration := some jEmptyObj, created_by := 7 }

/-- A database seeded with `mRowSeed` only. -/
def mStateSeed : MState :=
  { models := [mRowSeed], versions := [], audit_logs := [],
    activeAgentModelIds := [], nextModelId := 2, nextVersionId := 1,
    clock := 1 }

/-! ### The PersonaVersion constructor mismatch (C4) -/

/-- The endpoint `create_persona` under the literal Python semantics of the declared
`PersonaVersion` class: identical to `create_persona` up to the
`PersonaVersion(...)` call; if that constructor raises (invalid keyword,
see `personaVersionCtorRaises`), the route's blanket handler rolls the
session back — discarding the flushed but uncommitted persona row — and
returns 500 "Failed to create persona". -/
def create_persona_literal (st : PState) (actor : User)
    (req : PersonaCreateReq) (audit : AuditOutcome) : PState × PResp :=
  if !(roleGate actor ["Admin", "Developer", "Business User"]) then
    (st, .jsonError 403 "Insufficient permissions")
  else if req.noBody then (st, .jsonError 400 "Request data is required")
  else if strFalsy req.name then (st, .jsonError 400 "name is required")
  else if strFalsy req.system_prompt then
    (st, .jsonError 400 "system_prompt is required")
  else if st.personas.any
      (fun p => p.name == req.name.getD "" && p.created_by == actor.id) then
    (st, .jsonError 400 "You already have a persona with this name")
  else if personaVersionCtorRaises then
    (st, .jsonError 500 "Failed to create persona")
  else create_persona st actor req audit

/-! ## Theorems -/

example : pySplitDot "" = [""] := by decide

example : pySplitDot "1.0.0" = ["1", "0", "0"] := by decide

example : pySplitDot "a..b." = ["a", "", "b", ""] := by decide

example : next_version "1.0.0" = "1.1.0" := by decide

example : next_version "1.9.3" = "1.10.0" := by decide

example : next_version "banana" = "banana.1" := by decide

example : next_version "1.x.0" = "1.x.0.1" := by decide

example : next_version "a.2.c" = "a.3.0" := by decide

example : next_version "1.2" = "1.2.1" := by decide

example : next_version "1.-2.0" = "1.-1.0" := by decide

example : next_version "1.2.3.4" = "1.2.3.4.1" := by decide

example : next_version "" = ".1" := by decide

lemma maxByCreatedAt_append_singleton {α : Type} (ys : List (VRow α))
    (y : VRow α) :
    maxByCreatedAt (ys ++ [y]) =
      match maxByCreatedAt ys with
      | none => some y
      | some a => if a.created_at < y.created_at then some y else some a := by
  unfold maxByCreatedAt
  rw [List.foldl_append, List.foldl_cons, List.foldl_nil]

/-- On a list whose creation times strictly increase, the SQL
`order_by(created_at.desc()).first()` returns the last row. -/
lemma maxByCreatedAt_of_sorted {α : Type} {vs : List (VRow α)}
    (h : vs.Pairwise (fun a b => a.created_at < b.created_at)) :
    maxByCreatedAt vs = vs.getLast? := by
  induction vs using List.reverseRecOn with
  | nil => rfl
  | append_singleton ys y ih =>
    have hsplit := List.pairwise_append.mp h
    rw [maxByCreatedAt_append_singleton, ih hsplit.1, List.getLast?_concat]
    cases hlast : ys.getLast? with
    | none => rfl
    | some a =>
      have ha : a ∈ ys := by
        obtain ⟨hne, rfl⟩ := List.mem_getLast?_eq_getLast hlast
        exact List.getLast_mem hne
      have hlt : a.created_at < y.created_at :=
        hsplit.2.2 a ha y (List.mem_singleton_self y)
      simp [hlt]

/-- A `first()` over a non-empty set of rows is never `None`. -/
lemma maxByCreatedAt_eq_none {α : Type} {vs : List (VRow α)} :
    maxByCreatedAt vs = none ↔ vs = [] := by
  constructor
  · intro h
    cases vs with
    | nil => rfl
    | cons v tl =>
      exfalso
      have aux : ∀ (l : List (VRow α)) (a : VRow α),
          l.foldl (fun acc v =>
            match acc with
            | none => some v
            | some a => if a.created_at < v.created_at then some v
                else some a) (some a) ≠ none := by
        intro l
        induction l with
        | nil => intro a hn; exact Option.noConfusion hn
        | cons w tl ih =>
          intro a
          show tl.foldl _ (if a.created_at < w.created_at then some w
            else some a) ≠ none
          by_cases hc : a.created_at < w.created_at
          · simpa [hc] using ih w
          · simpa [hc] using ih a
      exact aux tl v (by simpa [maxByCreatedAt, List.foldl_cons] using h)
  · intro h; subst h; rfl

/-- A sorted chain with latest row `lv` is some prefix followed by `lv`. -/
lemma chain_split_of_max {α : Type} {vs : List (VRow α)} {lv : VRow α}
    (hs : vs.Pairwise (fun a b => a.created_at < b.created_at))
    (h : maxByCreatedAt vs = some lv) :
    ∃ init, vs = init ++ [lv] := by
  rw [maxByCreatedAt_of_sorted hs] at h
  have hne : vs ≠ [] := by
    intro hnil; rw [hnil] at h; exact Option.noConfusion h
  refine ⟨vs.dropLast, ?_⟩
  have hlast := List.getLast?_eq_getLast_of_ne_nil hne
  rw [hlast] at h
  have : vs.getLast hne = lv := Option.some.inj h
  rw [← this]
  exact (List.dropLast_append_getLast hne).symm

lemma toggleOff_id {α : Type} (lvId : Nat) (v : VRow α) :
    (toggleOff lvId v).id = v.id := by
  unfold toggleOff; split <;> rfl

lemma toggleOff_parent {α : Type} (lvId : Nat) (v : VRow α) :
    (toggleOff lvId v).parent_id = v.parent_id := by
  unfold toggleOff; split <;> rfl

lemma toggleOff_time {α : Type} (lvId : Nat) (v : VRow α) :
    (toggleOff lvId v).created_at = v.created_at := by
  unfold toggleOff; split <;> rfl

lemma toggleOff_of_ne {α : Type} {lvId : Nat} {v : VRow α}
    (h : v.id ≠ lvId) : toggleOff lvId v = v := by
  unfold toggleOff
  simp [h]

lemma toggleOff_self {α : Type} {lvId : Nat} {v : VRow α}
    (h : v.id = lvId) : toggleOff lvId v = { v with is_active := false } := by
  unfold toggleOff
  simp [h]

/-- Filtering commutes with a map that does not disturb the filter
predicate. -/
lemma filter_map_comm {α : Type} (f : α → α) (p : α → Bool)
    (hf : ∀ v, p (f v) = p v) (l : List α) :
    (l.map f).filter p = (l.filter p).map f := by
  induction l with
  | nil => rfl
  | cons x xs ih =>
    rw [List.map_cons, List.filter_cons, List.filter_cons, hf]
    by_cases h : p x
    · simp only [h, if_pos, List.map_cons, ih]
    · simp only [h, if_neg, ih, Bool.false_eq_true, reduceIte]

lemma chainOf_append {α : Type} (xs ys : List (VRow α)) (pid : Nat) :
    chainOf (xs ++ ys) pid = chainOf xs pid ++ chainOf ys pid :=
  List.filter_append _ _

lemma chainOf_singleton_self {α : Type} {row : VRow α} {pid : Nat}
    (h : row.parent_id = pid) : chainOf [row] pid = [row] := by
  simp [chainOf, h]

lemma chainOf_singleton_other {α : Type} {row : VRow α} {pid : Nat}
    (h : row.parent_id ≠ pid) : chainOf [row] pid = [] := by
  simp [chainOf, h]

lemma chainOf_map_toggleOff {α : Type} (vs : List (VRow α)) (lvId pid : Nat) :
    chainOf (vs.map (toggleOff lvId)) pid =
      (chainOf vs pid).map (toggleOff lvId) :=
  filter_map_comm _ _ (fun v => by rw [toggleOff_parent]) vs

lemma mem_chainOf {α : Type} {vs : List (VRow α)} {pid : Nat} {v : VRow α} :
    v ∈ chainOf vs pid ↔ v ∈ vs ∧ v.parent_id = pid := by
  simp [chainOf, List.mem_filter]

/-- Strictly increasing primary keys give a duplicate-free id column. -/
lemma nodup_ids_of_sorted {α : Type} {vs : List (VRow α)}
    (h : vs.Pairwise (fun a b => a.id < b.id)) :
    (vs.map (fun v => v.id)).Nodup :=
  List.pairwise_map.mpr (h.imp fun hlt => Nat.ne_of_lt hlt)

/-- With duplicate-free ids, equal ids of members force equal rows. -/
lemma eq_of_mem_of_id_eq {α : Type} {vs : List (VRow α)} {v w : VRow α}
    (h : vs.Pairwise (fun a b => a.id < b.id))
    (hv : v ∈ vs) (hw : w ∈ vs) (hid : v.id = w.id) : v = w :=
  List.inj_on_of_nodup_map (nodup_ids_of_sorted h) hv hw hid

/-- A well-formed non-empty chain has exactly one active row. -/
lemma chainOK_countP {α : Type} {vs : List (VRow α)} (h : chainOK vs)
    (hne : vs ≠ []) : vs.countP (fun v => v.is_active) = 1 := by
  have hperm : vs.reverse.countP (fun v => v.is_active) =
      vs.countP (fun v => v.is_active) :=
    (List.reverse_perm vs).countP_eq _
  rw [← hperm]
  unfold chainOK at h
  cases hrev : vs.reverse with
  | nil =>
    exact absurd (List.reverse_eq_nil_iff.mp hrev) hne
  | cons l rest =>
    rw [hrev] at h
    obtain ⟨hl, hrest⟩ := h
    rw [List.countP_cons, hl]
    have : rest.countP (fun v => v.is_active) = 0 :=
      List.countP_eq_zero.mpr (fun a ha => by simp [hrest a ha])
    simp [this]

/-- Inserting a fresh active row for a resource with an empty chain keeps
the table invariant. -/
lemma VTableInv.insertNew {α : Type} {vs : List (VRow α)}
    {nextId clock : Nat} (inv : VTableInv vs nextId clock) {row : VRow α}
    (hid : row.id = nextId) (hact : row.is_active = true)
    (htime : row.created_at = clock)
    (hfresh : chainOf vs row.parent_id = []) :
    VTableInv (vs ++ [row]) (nextId + 1) (clock + 1) := by
  constructor
  · intro v hv
    rcases List.mem_append.mp hv with h | h
    · exact Nat.lt_trans (inv.idBound v h) (Nat.lt_succ_self _)
    · rw [List.mem_singleton.mp h, hid]; exact Nat.lt_succ_self _
  · refine List.pairwise_append.mpr ⟨inv.idSorted, List.pairwise_singleton _ _,
      fun a ha b hb => ?_⟩
    rw [List.mem_singleton.mp hb, hid]
    exact inv.idBound a ha
  · intro v hv
    rcases List.mem_append.mp hv with h | h
    · exact Nat.lt_trans (inv.timeBound v h) (Nat.lt_succ_self _)
    · rw [List.mem_singleton.mp h, htime]; exact Nat.lt_succ_self _
  · refine List.pairwise_append.mpr ⟨inv.timeSorted,
      List.pairwise_singleton _ _, fun a ha b hb => ?_⟩
    rw [List.mem_singleton.mp hb, htime]
    exact inv.timeBound a ha
  · intro pid
    rw [chainOf_append]
    by_cases hp : row.parent_id = pid
    · rw [← hp, hfresh, List.nil_append, chainOf_singleton_self rfl]
      show activeHead [row].reverse
      simp [activeHead, hact]
    · rw [chainOf_singleton_other hp, List.append_nil]
      exact inv.chains pid

/-- The chain step of the update routes — deactivate the row returned by
`order_by(created_at.desc()).first()` and insert a fresh active row — keeps
the table invariant, for any resource id. -/
lemma VTableInv.chainStep {α : Type} {vs : List (VRow α)}
    {nextId clock : Nat} (inv : VTableInv vs nextId clock) {pid : Nat}
    {row : VRow α} (hid : row.id = nextId) (hact : row.is_active = true)
    (htime : row.created_at = clock) (hparent : row.parent_id = pid) :
    VTableInv (deactivatePrev vs (maxByCreatedAt (chainOf vs pid)) ++ [row])
      (nextId + 1) (clock + 1) := by
  cases hmax : maxByCreatedAt (chainOf vs pid) with
  | none =>
    have hfresh : chainOf vs pid = [] := maxByCreatedAt_eq_none.mp hmax
    show VTableInv (vs ++ [row]) _ _
    exact inv.insertNew hid hact htime (by rw [hparent]; exact hfresh)
  | some lv =>
    have hchainSorted : (chainOf vs pid).Pairwise
        (fun a b => a.created_at < b.created_at) :=
      inv.timeSorted.filter _
    obtain ⟨init, hsplit⟩ := chain_split_of_max hchainSorted hmax
    have hlvChain : lv ∈ chainOf vs pid := by
      rw [hsplit]; exact List.mem_append.mpr (Or.inr (List.mem_singleton_self _))
    have hlvMem : lv ∈ vs := (mem_chainOf.mp hlvChain).1
    have hlvParent : lv.parent_id = pid := (mem_chainOf.mp hlvChain).2
    show VTableInv (vs.map (toggleOff lv.id) ++ [row]) _ _
    constructor
    · intro v hv
      rcases List.mem_append.mp hv with h | h
      · obtain ⟨w, hw, rfl⟩ := List.mem_map.mp h
        rw [toggleOff_id]
        exact Nat.lt_trans (inv.idBound w hw) (Nat.lt_succ_self _)
      · rw [List.mem_singleton.mp h, hid]; exact Nat.lt_succ_self _
    · refine List.pairwise_append.mpr ⟨?_, List.pairwise_singleton _ _,
        fun a ha b hb => ?_⟩
      · exact List.pairwise_map.mpr (by
          refine inv.idSorted.imp_of_mem ?_
          intro a b _ _ hab
          rw [toggleOff_id, toggleOff_id]; exact hab)
      · obtain ⟨w, hw, rfl⟩ := List.mem_map.mp ha
        rw [List.mem_singleton.mp hb, hid, toggleOff_id]
        exact inv.idBound w hw
    · intro v hv
      rcases List.mem_append.mp hv with h | h
      · obtain ⟨w, hw, rfl⟩ := List.mem_map.mp h
        rw [toggleOff_time]
        exact Nat.lt_trans (inv.timeBound w hw) (Nat.lt_succ_self _)
      · rw [List.mem_singleton.mp h, htime]; exact Nat.lt_succ_self _
    · refine List.pairwise_append.mpr ⟨?_, List.pairwise_singleton _ _,
        fun a ha b hb => ?_⟩
      · exact List.pairwise_map.mpr (by
          refine inv.timeSorted.imp_of_mem ?_
          intro a b _ _ hab
          rw [toggleOff_time, toggleOff_time]; exact hab)
      · obtain ⟨w, hw, rfl⟩ := List.mem_map.mp ha
        rw [List.mem_singleton.mp hb, htime, toggleOff_time]
        exact inv.timeBound w hw
    · intro pid'
      rw [chainOf_append, chainOf_map_toggleOff]
      by_cases hp : pid' = pid
      · subst hp
        rw [chainOf_singleton_self hparent, hsplit, List.map_append]
        have hidsChain : (init ++ [lv]).Pairwise (fun a b => a.id < b.id) := by
          rw [← hsplit]; exact inv.idSorted.filter _
        have hinit : ∀ v ∈ init, v.id ≠ lv.id := by
          intro v hv
          exact Nat.ne_of_lt ((List.pairwise_append.mp hidsChain).2.2 v hv lv
            (List.mem_singleton_self _))
        have hinitId : init.map (toggleOff lv.id) = init := by
          rw [List.map_congr_left (fun v hv => toggleOff_of_ne (hinit v hv))]
          exact List.map_id' init
        have hlvToggle : toggleOff lv.id lv = { lv with is_active := false } :=
          toggleOff_self rfl
        rw [hinitId]
        show activeHead (init ++ [toggleOff lv.id lv] ++ [row]).reverse
        rw [hlvToggle]
        have hold := inv.chains pid'
        rw [hsplit] at hold
        unfold chainOK at hold
        rw [List.reverse_append] at hold
        simp only [List.reverse_singleton, List.singleton_append] at hold
        rw [List.reverse_append, List.reverse_append]
        simp only [List.reverse_singleton, List.singleton_append,
          List.cons_append, List.nil_append]
        refine ⟨hact, ?_⟩
        intro v hv
        rcases List.mem_cons.mp hv with h | h
        · rw [h]
        · exact hold.2 v h
      · rw [chainOf_singleton_other (by rw [hparent]; exact fun h => hp h.symm),
          List.append_nil]
        have hne : ∀ v ∈ chainOf vs pid', v.id ≠ lv.id := by
          intro v hv hidEq
          have hvMem : v ∈ vs := (mem_chainOf.mp hv).1
          have hvParent : v.parent_id = pid' := (mem_chainOf.mp hv).2
          have : v = lv := eq_of_mem_of_id_eq inv.idSorted hvMem hlvMem hidEq
          rw [this] at hvParent
          exact hp (hvParent.symm.trans hlvParent)
        have : (chainOf vs pid').map (toggleOff lv.id) = chainOf vs pid' := by
          rw [List.map_congr_left (fun v hv => toggleOff_of_ne (hne v hv))]
          exact List.map_id' _
        rw [this]
        exact inv.chains pid'

/-- Advancing the clock alone keeps the table invariant. -/
lemma VTableInv.tick {α : Type} {vs : List (VRow α)} {n c : Nat}
    (inv : VTableInv vs n c) : VTableInv vs n (c + 1) :=
  ⟨inv.idBound, inv.idSorted,
    fun v hv => Nat.lt_trans (inv.timeBound v hv) (Nat.lt_succ_self _),
    inv.timeSorted, inv.chains⟩

lemma pInv_init : PInv pInit := by
  refine ⟨⟨?_, ?_, ?_, ?_, ?_⟩, ?_, ?_⟩ <;>
    simp [pInit, chainOf, chainOK, activeHead]

lemma pInv_log {st : PState} (inv : PInv st) (e : AuditRow)
    (o : AuditOutcome) : PInv (log_activity_p st e o) := by
  cases o <;> exact ⟨inv.table, inv.parentBound, inv.personaBound⟩

lemma applyUpd_fst_pres {ρ α β : Type} [DecidableEq α] (proj : ρ → β)
    (cur : ρ × List String) (fieldName : String) (newVal : Option α)
    (get : ρ → α) (set : ρ → α → ρ)
    (hset : ∀ r v, proj (set r v) = proj r) :
    proj (applyUpd cur fieldName newVal get set).1 = proj cur.1 := by
  unfold applyUpd
  cases newVal with
  | none => rfl
  | some v =>
    dsimp only
    split
    · rfl
    · exact hset _ _

lemma applyUpd_persona_id {α : Type} [DecidableEq α]
    (cur : PersonaRow × List String) (fn : String) (nv : Option α)
    (get : PersonaRow → α) (set : PersonaRow → α → PersonaRow)
    (hset : ∀ r v, (set r v).id = r.id) :
    (applyUpd cur fn nv get set).1.id = cur.1.id :=
  applyUpd_fst_pres (fun r => r.id) cur fn nv get set hset

lemma adminFlagUpd_fst_pres {ρ β : Type} (proj : ρ → β) (isAdmin : Bool)
    (cur : ρ × List String) (fieldName : String) (newVal : Option Bool)
    (get : ρ → Bool) (set : ρ → Bool → ρ)
    (hset : ∀ r v, proj (set r v) = proj r) :
    proj (adminFlagUpd isAdmin cur fieldName newVal get set).1 =
      proj cur.1 := by
  unfold adminFlagUpd
  split
  · cases newVal with
    | none => rfl
    | some b =>
      dsimp only
      split
      · exact hset _ _
      · exact hset _ _
  · rfl

lemma adminFlagUpd_persona_id (isAdmin : Bool)
    (cur : PersonaRow × List String) (fn : String) (nv : Option Bool)
    (get : PersonaRow → Bool) (set : PersonaRow → Bool → PersonaRow)
    (hset : ∀ r v, (set r v).id = r.id) :
    (adminFlagUpd isAdmin cur fn nv get set).1.id = cur.1.id :=
  adminFlagUpd_fst_pres (fun r => r.id) isAdmin cur fn nv get set hset

/-- The update loop never touches the primary key. -/
lemma personaApplyChanges_id (p : PersonaRow) (actor : User)
    (req : PersonaUpdateReq) :
    (personaApplyChanges p actor req).1.id = p.id := by
  unfold personaApplyChanges
  dsimp only
  rw [adminFlagUpd_persona_id, applyUpd_persona_id, applyUpd_persona_id,
    applyUpd_persona_id, applyUpd_persona_id, applyUpd_persona_id,
    applyUpd_persona_id, applyUpd_persona_id, applyUpd_persona_id,
    applyUpd_persona_id] <;>
    first
    | rfl
    | (intro r v; rfl)

/-- The endpoint `create_persona` preserves the invariant: every path —
including the constructor raise — leaves the state untouched. -/
lemma pInv_create {st : PState} (inv : PInv st) (a : User)
    (r : PersonaCreateReq) (o : AuditOutcome) :
    PInv (create_persona st a r o).1 := by
  unfold create_persona
  repeat
    first
    | exact inv
    | split

/-- The endpoint `update_persona` preserves the invariant: its error paths
(the constructor raise of the significant branch among them) leave the
state untouched, and a non-significant change only rewrites persona
content. -/
lemma pInv_update {st : PState} (inv : PInv st) (a : User) (pid : Nat)
    (r : PersonaUpdateReq) (o : AuditOutcome) :
    PInv (update_persona st a pid r o).1 := by
  have hb : ∀ (p : PersonaRow), List.find? (fun p => p.id == pid)
      st.personas = some p →
      ∀ q ∈ st.personas.map (fun q =>
        if (q.id == pid) = true then (personaApplyChanges p a r).1 else q),
      q.id < st.nextPersonaId := by
    intro p hfind q hq
    have hpMem : p ∈ st.personas := List.mem_of_find?_eq_some hfind
    have hpid : p.id = pid := by
      have := List.find?_some hfind
      simpa using this
    obtain ⟨q', hq', rfl⟩ := List.mem_map.mp hq
    by_cases hqe : (q'.id == pid) = true
    · rw [if_pos hqe, personaApplyChanges_id]
      exact inv.personaBound p hpMem
    · rw [if_neg hqe]
      exact inv.personaBound q' hq'
  unfold update_persona
  repeat
    first
    | exact inv
    | split
    | dsimp only
  · -- non-significant update: only persona content changes
    rename_i p hfind hown hnob hconf hctor hempty hsig
    apply pInv_log
    exact ⟨inv.table.tick, inv.parentBound, hb p hfind⟩
  · -- the guarded chain step is dynamically dead
    rename_i hctor
    exact absurd (by decide) hctor

lemma mInv_init : MInv mInit := by
  refine ⟨⟨?_, ?_, ?_, ?_, ?_⟩, ?_, ?_⟩ <;>
    simp [mInit, chainOf, chainOK, activeHead]

lemma mInv_log {st : MState} (inv : MInv st) (e : AuditRow)
    (o : AuditOutcome) : MInv (log_activity_m st e o) := by
  cases o <;> exact ⟨inv.table, inv.parentBound, inv.modelBound⟩

lemma applyUpd_model_id {α : Type} [DecidableEq α]
    (cur : ModelRow × List String) (fn : String) (nv : Option α)
    (get : ModelRow → α) (set : ModelRow → α → ModelRow)
    (hset : ∀ r v, (set r v).id = r.id) :
    (applyUpd cur fn nv get set).1.id = cur.1.id :=
  applyUpd_fst_pres (fun r => r.id) cur fn nv get set hset

lemma adminFlagUpd_model_id (isAdmin : Bool)
    (cur : ModelRow × List String) (fn : String) (nv : Option Bool)
    (get : ModelRow → Bool) (set : ModelRow → Bool → ModelRow)
    (hset : ∀ r v, (set r v).id = r.id) :
    (adminFlagUpd isAdmin cur fn nv get set).1.id = cur.1.id :=
  adminFlagUpd_fst_pres (fun r => r.id) isAdmin cur fn nv get set hset

/-- The model update loop never touches the primary key. -/
lemma modelApplyChanges_id (m : ModelRow) (actor : User)
    (req : ModelUpdateReq) :
    (modelApplyChanges m actor req).1.id = m.id := by
  unfold modelApplyChanges
  dsimp only
  rw [adminFlagUpd_model_id, adminFlagUpd_model_id, applyUpd_model_id,
    applyUpd_model_id, applyUpd_model_id, applyUpd_model_id,
    applyUpd_model_id, applyUpd_model_id, applyUpd_model_id,
    applyUpd_model_id, applyUpd_model_id, applyUpd_model_id,
    applyUpd_model_id] <;>
    first
    | rfl
    | (intro r v; rfl)

/-- The endpoint `create_model` preserves the invariant. -/
lemma mInv_create {st : MState} (inv : MInv st) (a : User)
    (r : ModelCreateReq) (o : AuditOutcome) :
    MInv (create_model st a r o).1 := by
  unfold create_model
  repeat
    first
    | exact inv
    | split
  apply mInv_log
  have hfresh : chainOf st.versions st.nextModelId = [] := by
    unfold chainOf
    rw [List.filter_eq_nil_iff]
    intro v hv
    simp only [beq_iff_eq]
    exact Nat.ne_of_lt (inv.parentBound v hv)
  refine ⟨inv.table.insertNew rfl rfl rfl hfresh, ?_, ?_⟩
  · intro w hw
    rcases List.mem_append.mp hw with h | h
    · exact Nat.lt_trans (inv.parentBound w h) (Nat.lt_succ_self _)
    · rw [List.mem_singleton.mp h]
      exact Nat.lt_succ_self _
  · intro q hq
    rcases List.mem_append.mp hq with h | h
    · exact Nat.lt_trans (inv.modelBound q h) (Nat.lt_succ_self _)
    · rw [List.mem_singleton.mp h]
      exact Nat.lt_succ_self _

/-- The endpoint `update_model` preserves the invariant. -/
lemma mInv_update {st : MState} (inv : MInv st) (a : User) (mid : Nat)
    (r : ModelUpdateReq) (o : AuditOutcome) :
    MInv (update_model st a mid r o).1 := by
  have hb : ∀ (m : ModelRow), List.find? (fun m => m.id == mid)
      st.models = some m →
      ∀ q ∈ st.models.map (fun q =>
        if (q.id == mid) = true then (modelApplyChanges m a r).1 else q),
      q.id < st.nextModelId := by
    intro m hfind q hq
    have hmMem : m ∈ st.models := List.mem_of_find?_eq_some hfind
    obtain ⟨q', hq', rfl⟩ := List.mem_map.mp hq
    by_cases hqe : (q'.id == mid) = true
    · rw [if_pos hqe, modelApplyChanges_id]
      exact inv.modelBound m hmMem
    · rw [if_neg hqe]
      exact inv.modelBound q' hq'
  unfold update_model
  repeat
    first
    | exact inv
    | split
    | dsimp only
  · -- significant update, previous version found
    rename_i m hfind hown hnob hconf hempty hsig x2 lv hmax
    apply mInv_log
    have hmMem : m ∈ st.models := List.mem_of_find?_eq_some hfind
    have hmid : m.id = mid := by
      have := List.find?_some hfind
      simpa using this
    have hmidLt : mid < st.nextModelId := hmid ▸ inv.modelBound m hmMem
    refine ⟨inv.table.chainStep rfl rfl rfl rfl, ?_, hb m hfind⟩
    intro w hw
    rcases List.mem_append.mp hw with h | h
    · rw [hmax] at h
      simp only [deactivatePrev] at h
      obtain ⟨w', hw', rfl⟩ := List.mem_map.mp h
      rw [toggleOff_parent]
      exact inv.parentBound w' hw'
    · rw [List.mem_singleton.mp h]
      exact hmidLt
  · -- significant update, no previous version
    rename_i m hfind hown hnob hconf hempty hsig x2 hmax
    apply mInv_log
    have hmMem : m ∈ st.models := List.mem_of_find?_eq_some hfind
    have hmid : m.id = mid := by
      have := List.find?_some hfind
      simpa using this
    have hmidLt : mid < st.nextModelId := hmid ▸ inv.modelBound m hmMem
    refine ⟨inv.table.chainStep rfl rfl rfl rfl, ?_, hb m hfind⟩
    intro w hw
    rcases List.mem_append.mp hw with h | h
    · rw [hmax] at h
      simp only [deactivatePrev] at h
      exact inv.parentBound w h
    · rw [List.mem_singleton.mp h]
      exact hmidLt
  · -- non-significant update
    rename_i m hfind hown hnob hconf hempty hsig
    apply mInv_log
    exact ⟨inv.table.tick, inv.parentBound, hb m hfind⟩

lemma pInv_step {st : PState} (inv : PInv st) (op : POp) :
    PInv (pStep st op) := by
  cases op with
  | createOp a r o => exact pInv_create inv a r o
  | updateOp a pid r o => exact pInv_update inv a pid r o

lemma pInv_run (ops : List POp) : PInv (pRun ops) := by
  have aux : ∀ (l : List POp) (st : PState), PInv st →
      PInv (l.foldl pStep st) := by
    intro l
    induction l with
    | nil => intro st inv; exact inv
    | cons op tl ih => intro st inv; exact ih _ (pInv_step inv op)
  exact aux ops pInit pInv_init

lemma mInv_step {st : MState} (inv : MInv st) (op : MOp) :
    MInv (mStep st op) := by
  cases op with
  | createOp a r o => exact mInv_create inv a r o
  | updateOp a mid r o => exact mInv_update inv a mid r o

lemma mInv_run (ops : List MOp) : MInv (mRun ops) := by
  have aux : ∀ (l : List MOp) (st : MState), MInv st →
      MInv (l.foldl mStep st) := by
    intro l
    induction l with
    | nil => intro st inv; exact inv
    | cons op tl ih => intro st inv; exact ih _ (mInv_step inv op)
  exact aux ops mInit mInv_init

lemma log_activity_p_versions (st : PState) (e : AuditRow)
    (o : AuditOutcome) : (log_activity_p st e o).versions = st.versions := by
  cases o <;> rfl

lemma log_activity_m_versions (st : MState) (e : AuditRow)
    (o : AuditOutcome) : (log_activity_m st e o).versions = st.versions := by
  cases o <;> rfl

/-- The endpoint `create_persona` never commits a version row: every path
either fails before the insert or dies in the constructor raise. -/
lemma create_persona_versions (st : PState) (a : User)
    (r : PersonaCreateReq) (o : AuditOutcome) :
    (create_persona st a r o).1.versions = st.versions := by
  unfold create_persona
  repeat
    first
    | rfl
    | split

/-- The endpoint `update_persona` never commits a version row either: the
chain step is guarded by the constructor raise. -/
lemma update_persona_versions (st : PState) (a : User) (pid : Nat)
    (r : PersonaUpdateReq) (o : AuditOutcome) :
    (update_persona st a pid r o).1.versions = st.versions := by
  unfold update_persona
  repeat
    first
    | rfl
    | split
    | dsimp only
  · rw [log_activity_p_versions]
  · rename_i hctor
    exact absurd (by decide) hctor

/-- No reachable persona state carries a version row. -/
lemma pRun_versions_nil (ops : List POp) : (pRun ops).versions = [] := by
  have aux : ∀ (l : List POp) (st : PState), st.versions = [] →
      (l.foldl pStep st).versions = [] := by
    intro l
    induction l with
    | nil => intro st h; exact h
    | cons op tl ih =>
      intro st h
      apply ih
      cases op with
      | createOp a r o => exact (create_persona_versions st a r o).trans h
      | updateOp a pid r o =>
        exact (update_persona_versions st a pid r o).trans h
  exact aux ops pInit rfl

/-- C1: for every resource (Model or Persona) and every sequence of create
and update operations applied through the embedded endpoints, after each
operation completes, a resource that has at least one version row has
exactly one version row with `is_active = true`.  On the model machine
this is the chain invariant; on the persona machine every create and every
significant update dies in the `PersonaVersion` constructor raise before
anything is committed, so no persona ever has a version row and the
persona half of the claim holds vacuously — stated as the emptiness of the
reachable version table. -/
theorem C1_exactly_one_active_version :
    (∀ ops : List POp, (pRun ops).versions = []) ∧
    (∀ (ops : List MOp) (mid : Nat),
      chainOf (mRun ops).versions mid ≠ [] →
      (chainOf (mRun ops).versions mid).countP (fun v => v.is_active) = 1) :=
  ⟨pRun_versions_nil,
   fun ops mid h => chainOK_countP ((mInv_run ops).table.chains mid) h⟩

/-- Witness for C1 at a concrete trace: the Scenario-A persona trace leaves
the version table empty, and a model create followed by a significant
update leaves a two-row chain with exactly one active row. -/
theorem C1_exactly_one_active_version_witness :
    (pRun [POp.createOp uDev reqReviewer AuditOutcome.ok,
        POp.updateOp uDev 1 updPromptY AuditOutcome.ok]).versions = [] ∧
    (chainOf (mRun [MOp.createOp uAdmin reqModelM1 AuditOutcome.ok,
        MOp.updateOp uAdmin 1 updModelTemp AuditOutcome.ok]).versions 1 ≠ []
      ∧ (chainOf (mRun [MOp.createOp uAdmin reqModelM1 AuditOutcome.ok,
        MOp.updateOp uAdmin 1 updModelTemp AuditOutcome.ok]).versions
          1).countP (fun v => v.is_active) = 1) :=
  ⟨C1_exactly_one_active_version.1 _,
   ⟨by decide, C1_exactly_one_active_version.2 _ 1 (by decide)⟩⟩

/-! ### The version string written by a significant update -/

/-- In a well-formed table, an active row of a chain is exactly the row that
`order_by(created_at.desc()).first()` fetches. -/
lemma active_eq_max {α : Type} {vs : List (VRow α)} {nextId clock : Nat}
    (inv : VTableInv vs nextId clock) {pid : Nat} {lv : VRow α}
    (hmem : lv ∈ vs) (hp : lv.parent_id = pid) (hact : lv.is_active = true) :
    maxByCreatedAt (chainOf vs pid) = some lv := by
  have hchain : lv ∈ chainOf vs pid := mem_chainOf.mpr ⟨hmem, hp⟩
  have hsorted : (chainOf vs pid).Pairwise
      (fun a b => a.created_at < b.created_at) := by
    unfold chainOf
    exact inv.timeSorted.filter _
  rw [maxByCreatedAt_of_sorted hsorted, List.getLast?_eq_head?_reverse]
  have hOK := inv.chains pid
  unfold chainOK at hOK
  cases hrev : (chainOf vs pid).reverse with
  | nil =>
    rw [List.reverse_eq_nil_iff.mp hrev] at hchain
    exact absurd hchain (List.not_mem_nil lv)
  | cons l rest =>
    rw [hrev] at hOK
    obtain ⟨hl, hrest⟩ := hOK
    have hlvRev : lv ∈ l :: rest := by
      rw [← hrev]
      exact List.mem_reverse.mpr hchain
    rcases List.mem_cons.mp hlvRev with h | h
    · rw [h]
      rfl
    · rw [hrest lv h] at hact
      exact absurd hact (by simp)

/-- When a significant model update inserts a new version row, its version
string is `next_version` of the previously active row's version string. -/
lemma update_model_new_version {st : MState} (inv : MInv st) (a : User)
    (mid : Nat) (r : ModelUpdateReq) (o : AuditOutcome)
    {v lv : ModelVersionRow}
    (hvNew : v ∈ (update_model st a mid r o).1.versions)
    (hvOld : v ∉ st.versions) (hvAct : v.is_active = true)
    (hlvMem : lv ∈ st.versions) (hlvPar : lv.parent_id = v.parent_id)
    (hlvAct : lv.is_active = true) :
    v.version = next_version lv.version := by
  unfold update_model at hvNew
  repeat
    first
    | exact absurd hvNew hvOld
    | split at hvNew
    | dsimp only at hvNew
  · rename_i m hfind hown hnob hconf hempty hsig x2 lv' hmax
    rw [log_activity_m_versions] at hvNew
    dsimp only at hvNew
    rw [hmax] at hvNew
    simp only [deactivatePrev] at hvNew
    rcases List.mem_append.mp hvNew with h | h
    · obtain ⟨w, hw, hveq⟩ := List.mem_map.mp h
      by_cases hwe : (w.id == lv'.id) = true
      · rw [← hveq, toggleOff_self (by simpa using hwe)] at hvAct
        exact absurd hvAct (by simp)
      · rw [toggleOff_of_ne (by simpa using hwe)] at hveq
        rw [← hveq] at hvOld
        exact absurd hw hvOld
    · rw [List.mem_singleton.mp h]
      rw [List.mem_singleton.mp h] at hlvPar
      dsimp only at hlvPar ⊢
      have hlv : maxByCreatedAt (chainOf st.versions mid) = some lv :=
        active_eq_max inv.table hlvMem hlvPar hlvAct
      rw [hmax] at hlv
      rw [Option.some.inj hlv]
  · rename_i m hfind hown hnob hconf hempty hsig x2 hmax
    rw [log_activity_m_versions] at hvNew
    dsimp only at hvNew
    rw [hmax] at hvNew
    simp only [deactivatePrev] at hvNew
    rcases List.mem_append.mp hvNew with h | h
    · exact absurd h hvOld
    · rw [List.mem_singleton.mp h] at hlvPar
      dsimp only at hlvPar
      have hlv : maxByCreatedAt (chainOf st.versions mid) = some lv :=
        active_eq_max inv.table hlvMem hlvPar hlvAct
      rw [hmax] at hlv
      exact absurd hlv (by simp)
  · rename_i m hfind hown hnob hconf hempty hsig
    rw [log_activity_m_versions] at hvNew
    exact absurd hvNew hvOld

/-- C3: on a significant update with a previous version, the next version
string comes from parsing the previous active version's
`major.minor.patch` string — keeping the major component, incrementing the
minor by 1 and resetting the patch to 0 — and for every previous version
string on which that parse fails (the split does not give exactly three
components, or the minor component is not an integer), the new string is
the previous string with ".1" appended verbatim.  Stated as: the
characterisation of `next_version` in both parse outcomes (the code of
that computation is shared verbatim by the two routes), plus, on the model
machine, that a version row freshly inserted by an update carries
`next_version` of the previously active row's string.  On the persona
machine an update commits no version row at all — the chain step dies in
the `PersonaVersion` constructor raise — so the claim's persona instance,
whose antecedent needs a previously existing version, never arises; that
is stated as the emptiness of the version table after any update. -/
theorem C3_next_version_computation :
    (∀ (s ma mi pa : String) (m : Int), pySplitDot s = [ma, mi, pa] →
      pyInt mi = some m →
      next_version s = ma ++ "." ++ toString (m + 1) ++ ".0") ∧
    (∀ (s ma mi pa : String), pySplitDot s = [ma, mi, pa] →
      pyInt mi = none → next_version s = s ++ ".1") ∧
    (∀ s : String, (∀ ma mi pa, pySplitDot s ≠ [ma, mi, pa]) →
      next_version s = s ++ ".1") ∧
    (∀ (ops : List POp) (a : User) (pid : Nat) (r : PersonaUpdateReq)
      (o : AuditOutcome),
      (update_persona (pRun ops) a pid r o).1.versions = []) ∧
    (∀ (ops : List MOp) (a : User) (mid : Nat) (r : ModelUpdateReq)
      (o : AuditOutcome) (v lv : ModelVersionRow),
      v ∈ (update_model (mRun ops) a mid r o).1.versions →
      v ∉ (mRun ops).versions → v.is_active = true →
      lv ∈ (mRun ops).versions → lv.parent_id = v.parent_id →
      lv.is_active = true → v.version = next_version lv.version) := by
  refine ⟨?_, ?_, ?_, ?_, ?_⟩
  · intro s ma mi pa m hsplit hint
    unfold next_version
    rw [hsplit]
    dsimp only
    rw [hint]
  · intro s ma mi pa hsplit hint
    unfold next_version
    rw [hsplit]
    dsimp only
    rw [hint]
  · intro s h
    unfold next_version
    split
    · rename_i ma mi pa heq
      exact absurd heq (h ma mi pa)
    · rfl
  · intro ops a pid r o
    rw [update_persona_versions, pRun_versions_nil]
  · intro ops a mid r o v lv h1 h2 h3 h4 h5 h6
    exact update_model_new_version (mInv_run ops) a mid r o h1 h2 h3 h4 h5 h6

/-- Witness for C3 at concrete inputs: the parse characterisation at
"1.0.0" and "banana", and the machine statement on the model trace, where
the row inserted by the temperature update carries
`next_version "1.0.0" = "1.1.0"`. -/
theorem C3_next_version_computation_witness :
    (pySplitDot "1.0.0" = ["1", "0", "0"] ∧ pyInt "0" = some 0 ∧
      next_version "1.0.0" = "1." ++ toString ((0 : Int) + 1) ++ ".0") ∧
    (next_version "banana" = "banana" ++ ".1") ∧
    (mvRowB ∈ (update_model (mRun [MOp.createOp uAdmin reqModelM1
        AuditOutcome.ok]) uAdmin 1 updModelTemp AuditOutcome.ok).1.versions ∧
      mvRowB.version = next_version mvRowA.version) :=
  ⟨⟨by decide, by decide,
    C3_next_version_computation.1 "1.0.0" "1" "0" "0" 0 (by decide)
      (by decide)⟩,
   C3_next_version_computation.2.2.1 "banana"
     (fun ma mi pa h => by simp [pySplitDot, pySplitDotAux] at h),
   ⟨by decide,
    C3_next_version_computation.2.2.2.2
      [MOp.createOp uAdmin reqModelM1 AuditOutcome.ok] uAdmin 1 updModelTemp
      AuditOutcome.ok mvRowB mvRowA (by decide) (by decide) (by decide)
      (by decide) (by decide) (by decide)⟩⟩

/-- For a Developer or Business User, membership in the filtered persona
query is approval or ownership — visibility plays no part. -/
lemma mem_accessible_personas (u : User) (records : List PersonaRow)
    (r : PersonaRow)
    (hrole : u.role = some "Developer" ∨ u.role = some "Business User") :
    r ∈ get_user_accessible_personas u records ↔
      r ∈ records ∧ (r.is_approved = true ∨ r.created_by = u.id) := by
  rcases hrole with h | h
  · have : get_user_accessible_personas u records =
        records.filter (fun r => r.created_by == u.id || r.is_approved) := by
      unfold get_user_accessible_personas User.hasRole
      rw [h]
      rfl
    rw [this, List.mem_filter]
    simp only [Bool.or_eq_true, beq_iff_eq]
    tauto
  · have : get_user_accessible_personas u records =
        records.filter (fun r => r.is_approved || r.created_by == u.id) := by
      unfold get_user_accessible_personas User.hasRole
      rw [h]
      rfl
    rw [this, List.mem_filter]
    simp only [Bool.or_eq_true, beq_iff_eq]

/-- C2 counterexample: for the non-admin Developer user 7 and an
unapproved, public persona owned by user 2, the claimed predicate
(approved OR owner OR public visibility) holds, yet the list filter
produced by `get_user_accessible_resources` excludes the record — the
implementation has no `visibility == 'public'` disjunct. -/
theorem C2_visibility_counterexample :
    uDev.role ≠ some "Admin" ∧
    (rPublicUnapproved.is_approved = true ∨
      rPublicUnapproved.created_by = uDev.id ∨
      rPublicUnapproved.visibility = "public") ∧
    rPublicUnapproved ∉
      get_user_accessible_personas uDev [rPublicUnapproved] := by
  decide

/-- C2 (amended): for a non-admin user with role Developer or Business
User, the list filter includes a record exactly when it is approved or
owned by the user; in particular a non-owner sees it exactly when it is
approved.  The record's visibility plays no part in the list filter. -/
theorem C2_list_filter_amended (u : User) (records : List PersonaRow)
    (r : PersonaRow)
    (hrole : u.role = some "Developer" ∨ u.role = some "Business User") :
    (r ∈ get_user_accessible_personas u records ↔
      r ∈ records ∧ (r.is_approved = true ∨ r.created_by = u.id)) ∧
    (r.created_by ≠ u.id →
      (r ∈ get_user_accessible_personas u records ↔
        r ∈ records ∧ r.is_approved = true)) := by
  refine ⟨mem_accessible_personas u records r hrole, fun hne => ?_⟩
  rw [mem_accessible_personas u records r hrole]
  tauto

/-- Witness for C2 (amended) at a concrete input: Developer 7 does not see
the unapproved public persona of user 2. -/
theorem C2_list_filter_amended_witness :
    (uDev.role = some "Developer" ∨ uDev.role = some "Business User") ∧
    rPublicUnapproved.created_by ≠ uDev.id ∧
    ((rPublicUnapproved ∈
        get_user_accessible_personas uDev [rPublicUnapproved]) ↔
      rPublicUnapproved ∈ [rPublicUnapproved] ∧
        rPublicUnapproved.is_approved = true) :=
  ⟨Or.inl rfl, by decide,
   (C2_list_filter_amended uDev [rPublicUnapproved] rPublicUnapproved
      (Or.inl rfl)).2 (by decide)⟩

/-- C8: a user whose role is absent or is none of Admin / Developer /
Business User falls through every branch of
`get_user_accessible_resources`, which returns the query unchanged, so
such a user's list request (with no search / visibility / status
arguments) sees every record of the resource type regardless of approval,
ownership or visibility — for personas and for models. -/
theorem C8_unrecognised_role_sees_all (u : User)
    (precords : List PersonaRow) (mrecords : List ModelRow)
    (hadmin : u.hasRole "Admin" = false)
    (hbiz : u.hasRole "Business User" = false)
    (hdev : u.hasRole "Developer" = false) :
    get_user_accessible_personas u precords = precords ∧
    get_user_accessible_models u mrecords = mrecords ∧
    get_personas_list u precords "" "" "" = precords := by
  have hp : get_user_accessible_personas u precords = precords := by
    unfold get_user_accessible_personas
    rw [hadmin, hbiz, hdev]
    rfl
  refine ⟨hp, ?_, ?_⟩
  · unfold get_user_accessible_models
    rw [hadmin, hbiz, hdev]
    rfl
  · unfold get_personas_list
    rw [hp]
    simp

/-- Witness for C8: a user with role "Guest" sees both sample personas,
the unapproved ones included. -/
theorem C8_unrecognised_role_sees_all_witness :
    uGuest.hasRole "Admin" = false ∧
    get_user_accessible_personas uGuest
        [rPublicUnapproved, pTeamUnapproved] =
      [rPublicUnapproved, pTeamUnapproved] ∧
    get_personas_list uGuest [rPublicUnapproved, pTeamUnapproved] "" "" "" =
      [rPublicUnapproved, pTeamUnapproved] :=
  ⟨by decide,
   (C8_unrecognised_role_sees_all uGuest
      [rPublicUnapproved, pTeamUnapproved] [] (by decide) (by decide)
      (by decide)).1,
   (C8_unrecognised_role_sees_all uGuest
      [rPublicUnapproved, pTeamUnapproved] [] (by decide) (by decide)
      (by decide)).2.2⟩

/-- C9 counterexample: for the non-admin user with role "Guest" and the
unapproved team-visibility persona of user 2, the single-record read is
allowed, but the list filter does not exclude the persona (it returns the
query unchanged for unrecognised roles), contradicting the claim's final
clause. -/
theorem C9_list_exclusion_counterexample :
    uGuest.role ≠ some "Admin" ∧ pTeamUnapproved.is_approved = false ∧
    pTeamUnapproved.created_by ≠ uGuest.id ∧
    get_persona_access uGuest pTeamUnapproved = true ∧
    ¬ (pTeamUnapproved ∉
        get_user_accessible_personas uGuest [pTeamUnapproved]) := by
  decide

/-- C9 (amended): for every non-admin user who does not own an unapproved
persona, the single-record read is denied (403) exactly when the persona's
visibility is "private" — so a team- or public-visibility unapproved
persona is readable — and, for such users whose role is Developer or
Business User, the list filter excludes that same persona, making the
single read strictly more permissive than the listing. -/
theorem C9_single_read_amended (u : User) (p : PersonaRow)
    (hadmin : u.hasRole "Admin" = false) (hunappr : p.is_approved = false)
    (hown : p.created_by ≠ u.id) :
    (get_persona_access u p = false ↔ p.visibility = "private") ∧
    ((u.role = some "Developer" ∨ u.role = some "Business User") →
      ∀ records : List PersonaRow,
        p ∉ get_user_accessible_personas u records) := by
  constructor
  · unfold get_persona_access
    rw [hadmin]
    simp only [Bool.false_eq_true, if_false, hunappr, Bool.not_false,
      Bool.true_and, bne_iff_ne, ne_eq, hown, not_false_eq_true, if_true]
    by_cases hv : p.visibility = "private" <;> simp [hv]
  · intro hrole records hmem
    rw [mem_accessible_personas u records p hrole] at hmem
    rcases hmem.2 with h | h
    · rw [hunappr] at h
      exact Bool.false_ne_true h
    · exact hown h

/-- Witness for C9 (amended): Developer 8 (non-owner) reading the
unapproved team persona: the read is allowed (visibility ≠ private), and
the persona is absent from the Developer's list. -/
theorem C9_single_read_amended_witness :
    (get_persona_access uDev pTeamUnapproved = false ↔
      pTeamUnapproved.visibility = "private") ∧
    pTeamUnapproved ∉
      get_user_accessible_personas uDev [pTeamUnapproved] :=
  ⟨(C9_single_read_amended uDev pTeamUnapproved (by decide) (by decide)
      (by decide)).1,
   (C9_single_read_amended uDev pTeamUnapproved (by decide) (by decide)
      (by decide)).2 (Or.inl rfl) [pTeamUnapproved]⟩

lemma roleGate_single (u : User) (x : String) :
    roleGate u [x] = u.hasRole x := by
  unfold roleGate User.hasRole
  cases u.role with
  | none => rfl
  | some r =>
    simp only [List.contains_cons, List.contains_nil, Bool.or_false]

/-- Replacing the found element (with one whose key still matches) makes
`find?` return the replacement. -/
lemma find?_map_replace {α : Type} (f : α → Bool) {l : List α} {p : α}
    (p' : α) (hfind : l.find? f = some p) (hp' : f p' = true) :
    (l.map (fun q => if f q = true then p' else q)).find? f = some p' := by
  induction l with
  | nil => exact absurd hfind (by simp)
  | cons x xs ih =>
    by_cases hx : f x = true
    · simp only [List.map_cons, if_pos hx]
      exact List.find?_cons_of_pos _ hp'
    · rw [List.find?_cons_of_neg _ hx] at hfind
      simp only [List.map_cons, if_neg hx]
      rw [List.find?_cons_of_neg _ hx]
      exact ih hfind

/-- C5: the approve operation requires the Admin role; on an unapproved
resource it sets `is_approved` and succeeds; on an already-approved
resource it fails with an "already approved" 400 error and leaves the
state unchanged; hence approving twice succeeds once and errors the second
time — for both Persona and Model. -/
theorem C5_approve_semantics :
    (∀ (st : PState) (a : User) (pid : Nat) (o o' : AuditOutcome),
      (a.hasRole "Admin" = false →
        approve_persona st a pid o =
          (st, PResp.jsonError 403 "Insufficient permissions")) ∧
      (∀ p, st.personas.find? (fun q => q.id == pid) = some p →
        (p.is_approved = true → a.hasRole "Admin" = true →
          approve_persona st a pid o =
            (st, PResp.jsonError 400 "Persona is already approved")) ∧
        (p.is_approved = false → a.hasRole "Admin" = true →
          (approve_persona st a pid o).2 =
            PResp.approved { p with is_approved := true } ∧
          (approve_persona st a pid o).1.personas =
            st.personas.map (fun q => if q.id == pid then
              { p with is_approved := true } else q) ∧
          (approve_persona (approve_persona st a pid o).1 a pid o').2 =
            PResp.jsonError 400 "Persona is already approved"))) ∧
    (∀ (st : MState) (a : User) (mid : Nat) (o o' : AuditOutcome),
      (a.hasRole "Admin" = false →
        approve_model st a mid o =
          (st, MResp.jsonError 403 "Insufficient permissions")) ∧
      (∀ m, st.models.find? (fun q => q.id == mid) = some m →
        (m.is_approved = true → a.hasRole "Admin" = true →
          approve_model st a mid o =
            (st, MResp.jsonError 400 "Model is already approved")) ∧
        (m.is_approved = false → a.hasRole "Admin" = true →
          (approve_model st a mid o).2 =
            MResp.approved { m with is_approved := true } ∧
          (approve_model st a mid o).1.models =
            st.models.map (fun q => if q.id == mid then
              { m with is_approved := true } else q) ∧
          (approve_model (approve_model st a mid o).1 a mid o').2 =
            MResp.jsonError 400 "Model is already approved"))) := by
  constructor
  · intro st a pid o o'
    constructor
    · intro hgate
      unfold approve_persona
      rw [roleGate_single, hgate]
      rfl
    · intro p hfind
      constructor
      · intro happr hadmin
        unfold approve_persona
        rw [roleGate_single, hadmin]
        dsimp only [Bool.not_true, Bool.false_eq_true, if_false]
        rw [hfind]
        dsimp only
        rw [happr]
        rfl
      · intro happr hadmin
        have hstep : approve_persona st a pid o =
            (log_activity_p { st with
              personas := st.personas.map (fun q => if q.id == pid then
                { p with is_approved := true } else q)
              clock := st.clock + 1 }
              { user_id := a.id, action := "persona_approved",
                resource_type := some "persona", resource_id := some pid,
                success := true } o,
             PResp.approved { p with is_approved := true }) := by
          unfold approve_persona
          rw [roleGate_single, hadmin]
          dsimp only [Bool.not_true, Bool.false_eq_true, if_false]
          rw [hfind]
          dsimp only
          rw [happr]
          rfl
        have hpers : (approve_persona st a pid o).1.personas =
            st.personas.map (fun q => if q.id == pid then
              { p with is_approved := true } else q) := by
          rw [hstep]
          cases o <;> rfl
        refine ⟨by rw [hstep], hpers, ?_⟩
        set S := (approve_persona st a pid o).1 with hS
        unfold approve_persona
        rw [roleGate_single, hadmin]
        dsimp only [Bool.not_true, Bool.false_eq_true, if_false]
        rw [hpers, find?_map_replace _ { p with is_approved := true } hfind
          (by simpa using List.find?_some hfind)]
        rfl
  · intro st a mid o o'
    constructor
    · intro hgate
      unfold approve_model
      rw [roleGate_single, hgate]
      rfl
    · intro m hfind
      constructor
      · intro happr hadmin
        unfold approve_model
        rw [roleGate_single, hadmin]
        dsimp only [Bool.not_true, Bool.false_eq_true, if_false]
        rw [hfind]
        dsimp only
        rw [happr]
        rfl
      · intro happr hadmin
        have hstep : approve_model st a mid o =
            (log_activity_m { st with
              models := st.models.map (fun q => if q.id == mid then
                { m with is_approved := true } else q)
              clock := st.clock + 1 }
              { user_id := a.id, action := "model_approved",
                resource_type := some "model", resource_id := some mid,
                success := true } o,
             MResp.approved { m with is_approved := true }) := by
          unfold approve_model
          rw [roleGate_single, hadmin]
          dsimp only [Bool.not_true, Bool.false_eq_true, if_false]
          rw [hfind]
          dsimp only
          rw [happr]
          rfl
        have hmods : (approve_model st a mid o).1.models =
            st.models.map (fun q => if q.id == mid then
              { m with is_approved := true } else q) := by
          rw [hstep]
          cases o <;> rfl
        refine ⟨by rw [hstep], hmods, ?_⟩
        set S := (approve_model st a mid o).1 with hS
        unfold approve_model
        rw [roleGate_single, hadmin]
        dsimp only [Bool.not_true, Bool.false_eq_true, if_false]
        rw [hmods, find?_map_replace _ { m with is_approved := true } hfind
          (by simpa using List.find?_some hfind)]
        rfl

/-- Witness for C5: admin approval of the seeded Developer persona
"Reviewer" succeeds once and errors on the second call; a non-admin is
rejected outright. -/
theorem C5_approve_semantics_witness :
    (uBiz.hasRole "Admin" = false ∧
      approve_persona pStateSeed uBiz 1 AuditOutcome.ok =
      (pStateSeed, PResp.jsonError 403 "Insufficient permissions")) ∧
    ((approve_persona pStateSeed uAdmin 1 AuditOutcome.ok).2.isSuccess =
        true ∧
      (approve_persona (approve_persona pStateSeed uAdmin 1
          AuditOutcome.ok).1 uAdmin 1 AuditOutcome.ok).2 =
        PResp.jsonError 400 "Persona is already approved") := by
  have hfind : pStateSeed.personas.find? (fun q => q.id == 1) =
      some pRowA := by decide
  have h := ((C5_approve_semantics.1 pStateSeed uAdmin 1
    AuditOutcome.ok AuditOutcome.ok).2 pRowA hfind).2 (by decide) (by decide)
  refine ⟨⟨by decide, (C5_approve_semantics.1 pStateSeed uBiz 1
    AuditOutcome.ok AuditOutcome.ok).1 (by decide)⟩, ?_, h.2.2⟩
  rw [h.1]
  rfl

/-! ### Missing-row vs ownership failures -/

/-- C6 is a code bug: `get_or_404` raises werkzeug's `NotFound`, which is
an `Exception`, and every update and delete handler wraps its whole body
in a blanket `except Exception`, so a missing id is answered with the
generic 500 ("Failed to update persona" and its siblings) instead of the
claimed 404 — for every actor, including admins.  The ownership half of
the claim works as described: an existing record owned by someone else
draws 403 "Access denied" and the state is left unmodified.  Shown by
evaluating the four update and delete endpoints on seeded databases,
together with the universal fact that none of them can return a 404
response at all. -/
theorem C6_missing_id_code_bug :
    (update_persona pStateSeed uAdmin 99 updPromptY AuditOutcome.ok =
      (pStateSeed, PResp.jsonError 500 "Failed to update persona")) ∧
    (delete_persona pStateSeed uAdmin 99 AuditOutcome.ok =
      (pStateSeed, PResp.jsonError 500 "Failed to delete persona")) ∧
    (update_model mStateSeed uAdmin 99 updModelTemp AuditOutcome.ok =
      (mStateSeed, MResp.jsonError 500 "Failed to update model")) ∧
    (delete_model mStateSeed uAdmin 99 AuditOutcome.ok =
      (mStateSeed, MResp.jsonError 500 "Failed to delete model")) ∧
    (update_persona pStateSeed uBiz 1 updPromptY AuditOutcome.ok =
      (pStateSeed, PResp.jsonError 403 "Access denied")) ∧
    (update_model mStateSeed uDev2 1 updModelTemp AuditOutcome.ok =
      (mStateSeed, MResp.jsonError 403 "Access denied")) ∧
    (∀ (st : PState) (a : User) (rid : Nat) (r : PersonaUpdateReq)
      (o : AuditOutcome) (msg : String),
      (update_persona st a rid r o).2 ≠ PResp.jsonError 404 msg) ∧
    (∀ (st : PState) (a : User) (rid : Nat) (o : AuditOutcome)
      (msg : String),
      (delete_persona st a rid o).2 ≠ PResp.jsonError 404 msg) ∧
    (∀ (st : MState) (a : User) (rid : Nat) (r : ModelUpdateReq)
      (o : AuditOutcome) (msg : String),
      (update_model st a rid r o).2 ≠ MResp.jsonError 404 msg) ∧
    (∀ (st : MState) (a : User) (rid : Nat) (o : AuditOutcome)
      (msg : String),
      (delete_model st a rid o).2 ≠ MResp.jsonError 404 msg) := by
  refine ⟨by decide, by decide, by decide, by decide, by decide, by decide,
    ?_, ?_, ?_, ?_⟩
  · intro st a rid r o msg
    unfold update_persona
    repeat'
      first
      | split
      | dsimp only
    all_goals simp_all
  · intro st a rid o msg
    unfold delete_persona
    repeat'
      first
      | split
      | dsimp only
    all_goals simp_all
  · intro st a rid r o msg
    unfold update_model
    repeat'
      first
      | split
      | dsimp only
    all_goals simp_all
  · intro st a rid o msg
    unfold delete_model
    repeat'
      first
      | split
      | dsimp only
    all_goals simp_all

/-! ### Role gates of the write endpoints -/

lemma create_persona_pass_ne {st : PState} {a : User} {r : PersonaCreateReq}
    {o : AuditOutcome}
    (hg : roleGate a ["Admin", "Developer", "Business User"] = true) :
    (create_persona st a r o).2 ≠
      PResp.jsonError 403 "Insufficient permissions" := by
  unfold create_persona
  rw [hg]
  repeat'
    first
    | split
    | dsimp only
  all_goals simp_all

lemma update_persona_pass_ne {st : PState} {a : User} {rid : Nat}
    {r : PersonaUpdateReq} {o : AuditOutcome}
    (hg : roleGate a ["Admin", "Developer", "Business User"] = true) :
    (update_persona st a rid r o).2 ≠
      PResp.jsonError 403 "Insufficient permissions" := by
  unfold update_persona
  rw [hg]
  repeat'
    first
    | split
    | dsimp only
  all_goals simp_all

lemma delete_persona_pass_ne {st : PState} {a : User} {rid : Nat}
    {o : AuditOutcome}
    (hg : roleGate a ["Admin", "Developer", "Business User"] = true) :
    (delete_persona st a rid o).2 ≠
      PResp.jsonError 403 "Insufficient permissions" := by
  unfold delete_persona
  rw [hg]
  repeat'
    first
    | split
    | dsimp only
  all_goals simp_all

lemma approve_persona_pass_ne {st : PState} {a : User} {rid : Nat}
    {o : AuditOutcome} (hg : roleGate a ["Admin"] = true) :
    (approve_persona st a rid o).2 ≠
      PResp.jsonError 403 "Insufficient permissions" := by
  unfold approve_persona
  rw [hg]
  repeat'
    first
    | split
    | dsimp only
  all_goals simp_all

lemma create_model_pass_ne {st : MState} {a : User} {r : ModelCreateReq}
    {o : AuditOutcome} (hg : roleGate a ["Admin", "Developer"] = true) :
    (create_model st a r o).2 ≠
      MResp.jsonError 403 "Insufficient permissions" := by
  unfold create_model
  rw [hg]
  repeat'
    first
    | split
    | dsimp only
  all_goals simp_all

lemma update_model_pass_ne {st : MState} {a : User} {rid : Nat}
    {r : ModelUpdateReq} {o : AuditOutcome}
    (hg : roleGate a ["Admin", "Developer"] = true) :
    (update_model st a rid r o).2 ≠
      MResp.jsonError 403 "Insufficient permissions" := by
  unfold update_model
  rw [hg]
  repeat'
    first
    | split
    | dsimp only
  all_goals simp_all

lemma delete_model_pass_ne {st : MState} {a : User} {rid : Nat}
    {o : AuditOutcome} (hg : roleGate a ["Admin", "Developer"] = true) :
    (delete_model st a rid o).2 ≠
      MResp.jsonError 403 "Insufficient permissions" := by
  unfold delete_model
  rw [hg]
  repeat'
    first
    | split
    | dsimp only
  all_goals simp_all

lemma approve_model_pass_ne {st : MState} {a : User} {rid : Nat}
    {o : AuditOutcome} (hg : roleGate a ["Admin"] = true) :
    (approve_model st a rid o).2 ≠
      MResp.jsonError 403 "Insufficient permissions" := by
  unfold approve_model
  rw [hg]
  repeat'
    first
    | split
    | dsimp only
  all_goals simp_all

/-- C7 counterexample: the claim's role lists are wrong on both sides.  A
Business User owns the seeded persona and successfully updates a
non-significant field and deletes it, so persona update and delete admit
Business User, not Admin and Developer only; on the empty database the
same Business User reaches past the gate into the handler (drawing its
500 on the missing id) while the out-of-gate Guest is stopped by the
gate's own 403; and the model create answers the Business User with the
gate's 403 "Insufficient permissions" although the claim allows create
for Business User. -/
theorem C7_role_gate_counterexample :
    (update_persona pStateBiz uBiz 1 updVisPublic AuditOutcome.ok).2 =
      PResp.updated { pRowBiz with visibility := "public" }
        ["visibility"] ∧
    (delete_persona pStateBiz uBiz 1 AuditOutcome.ok).2 = PResp.deleted ∧
    (update_persona pInit uBiz 1 updPromptY AuditOutcome.ok).2 =
      PResp.jsonError 500 "Failed to update persona" ∧
    (update_persona pInit uGuest 1 updPromptY AuditOutcome.ok).2 =
      PResp.jsonError 403 "Insufficient permissions" ∧
    (create_model mInit uBiz reqModelM1 AuditOutcome.ok).2 =
      MResp.jsonError 403 "Insufficient permissions" := by
  decide

/-- C7 (amended): each write endpoint returns the role-gate 403
"Insufficient permissions" exactly when the actor's role is outside its
allowed list, and the lists are: Persona create/update/delete — Admin,
Developer, Business User; Model create/update/delete — Admin, Developer;
approve — Admin only, for both resources. -/
theorem C7_role_gates_amended (stp : PState) (stm : MState) (a : User)
    (rid : Nat) (cr : PersonaCreateReq) (ur : PersonaUpdateReq)
    (cm : ModelCreateReq) (um : ModelUpdateReq) (o : AuditOutcome) :
    ((create_persona stp a cr o).2 =
        PResp.jsonError 403 "Insufficient permissions" ↔
      roleGate a ["Admin", "Developer", "Business User"] = false) ∧
    ((update_persona stp a rid ur o).2 =
        PResp.jsonError 403 "Insufficient permissions" ↔
      roleGate a ["Admin", "Developer", "Business User"] = false) ∧
    ((delete_persona stp a rid o).2 =
        PResp.jsonError 403 "Insufficient permissions" ↔
      roleGate a ["Admin", "Developer", "Business User"] = false) ∧
    ((approve_persona stp a rid o).2 =
        PResp.jsonError 403 "Insufficient permissions" ↔
      roleGate a ["Admin"] = false) ∧
    ((create_model stm a cm o).2 =
        MResp.jsonError 403 "Insufficient permissions" ↔
      roleGate a ["Admin", "Developer"] = false) ∧
    ((update_model stm a rid um o).2 =
        MResp.jsonError 403 "Insufficient permissions" ↔
      roleGate a ["Admin", "Developer"] = false) ∧
    ((delete_model stm a rid o).2 =
        MResp.jsonError 403 "Insufficient permissions" ↔
      roleGate a ["Admin", "Developer"] = false) ∧
    ((approve_model stm a rid o).2 =
        MResp.jsonError 403 "Insufficient permissions" ↔
      roleGate a ["Admin"] = false) := by
  refine ⟨?_, ?_, ?_, ?_, ?_, ?_, ?_, ?_⟩ <;> constructor <;> intro h
  · cases hg : roleGate a ["Admin", "Developer", "Business User"] with
    | true => exact absurd h (create_persona_pass_ne hg)
    | false => rfl
  · unfold create_persona
    rw [h]
    rfl
  · cases hg : roleGate a ["Admin", "Developer", "Business User"] with
    | true => exact absurd h (update_persona_pass_ne hg)
    | false => rfl
  · unfold update_persona
    rw [h]
    rfl
  · cases hg : roleGate a ["Admin", "Developer", "Business User"] with
    | true => exact absurd h (delete_persona_pass_ne hg)
    | false => rfl
  · unfold delete_persona
    rw [h]
    rfl
  · cases hg : roleGate a ["Admin"] with
    | true => exact absurd h (approve_persona_pass_ne hg)
    | false => rfl
  · unfold approve_persona
    rw [h]
    rfl
  · cases hg : roleGate a ["Admin", "Developer"] with
    | true => exact absurd h (create_model_pass_ne hg)
    | false => rfl
  · unfold create_model
    rw [h]
    rfl
  · cases hg : roleGate a ["Admin", "Developer"] with
    | true => exact absurd h (update_model_pass_ne hg)
    | false => rfl
  · unfold update_model
    rw [h]
    rfl
  · cases hg : roleGate a ["Admin", "Developer"] with
    | true => exact absurd h (delete_model_pass_ne hg)
    | false => rfl
  · unfold delete_model
    rw [h]
    rfl
  · cases hg : roleGate a ["Admin"] with
    | true => exact absurd h (approve_model_pass_ne hg)
    | false => rfl
  · unfold approve_model
    rw [h]
    rfl

/-- Witness for C7 (amended) at a concrete input: for the Business User,
the persona-create gate passes while the model-create gate rejects. -/
theorem C7_role_gates_amended_witness :
    ¬ ((create_persona pInit uBiz reqReviewer AuditOutcome.ok).2 =
        PResp.jsonError 403 "Insufficient permissions") ∧
    (create_model mInit uBiz reqModelM1 AuditOutcome.ok).2 =
      MResp.jsonError 403 "Insufficient permissions" :=
  ⟨fun h => by
      have := (C7_role_gates_amended pInit mInit uBiz 1 reqReviewer
        updPromptY reqModelM1 updModelTemp AuditOutcome.ok).1.mp h
      exact absurd this (by decide),
   (C7_role_gates_amended pInit mInit uBiz 1 reqReviewer updPromptY
      reqModelM1 updModelTemp AuditOutcome.ok).2.2.2.2.1.mpr (by decide)⟩

/-! ### Audit logging never breaks the enclosing operation (C10) -/

/-- C10: `log_activity` never propagates a failure: when the audit write
fails, the session is rolled back (discarding only the uncommitted audit
row) and the function returns normally, so the committed non-audit state is
untouched and the enclosing operation's response and committed rows are
identical whether the audit write succeeds or fails — shown for the state
function itself and for the create and update persona endpoints that call
it. -/
theorem C10_audit_failure_isolated :
    (∀ (st : PState) (e : AuditRow),
      log_activity_p st e AuditOutcome.fails = st) ∧
    (∀ (st : PState) (e : AuditRow) (o : AuditOutcome),
      (log_activity_p st e o).personas = st.personas ∧
      (log_activity_p st e o).versions = st.versions ∧
      (log_activity_p st e o).nextPersonaId = st.nextPersonaId ∧
      (log_activity_p st e o).nextVersionId = st.nextVersionId ∧
      (log_activity_p st e o).clock = st.clock) ∧
    (∀ (st : PState) (a : User) (r : PersonaCreateReq),
      (create_persona st a r AuditOutcome.ok).2 =
        (create_persona st a r AuditOutcome.fails).2 ∧
      (create_persona st a r AuditOutcome.ok).1.personas =
        (create_persona st a r AuditOutcome.fails).1.personas ∧
      (create_persona st a r AuditOutcome.ok).1.versions =
        (create_persona st a r AuditOutcome.fails).1.versions) ∧
    (∀ (st : PState) (a : User) (pid : Nat) (r : PersonaUpdateReq),
      (update_persona st a pid r AuditOutcome.ok).2 =
        (update_persona st a pid r AuditOutcome.fails).2 ∧
      (update_persona st a pid r AuditOutcome.ok).1.personas =
        (update_persona st a pid r AuditOutcome.fails).1.personas ∧
      (update_persona st a pid r AuditOutcome.ok).1.versions =
        (update_persona st a pid r AuditOutcome.fails).1.versions) := by
  refine ⟨fun st e => rfl, fun st e o => ?_, fun st a r => ?_,
    fun st a pid r => ?_⟩
  · cases o <;> exact ⟨rfl, rfl, rfl, rfl, rfl⟩
  · unfold create_persona
    exact ⟨rfl, rfl, rfl⟩
  · unfold update_persona
    repeat'
      first
      | exact ⟨rfl, rfl, rfl⟩
      | split
      | dsimp only

/-- C4 is a code bug, witnessed by evaluation: (a) the `PersonaVersion`
constructor call of `create_persona` uses keyword arguments (`version`,
`changelog`, `is_active`) that the declared class rejects, so the
Scenario-A create request returns 500 and commits nothing — no `1.0.0`
version row exists; (b) on the Model side a create without a temperature
succeeds but stores a snapshot whose temperature is `None` while the
resource itself defaults to `0.1`, so the snapshot differs from the
resource's initial content. -/
theorem C4_initial_version_code_bug :
    personaVersionCtorRaises = true ∧
    create_persona_literal pInit uDev reqReviewer AuditOutcome.ok =
      (pInit, PResp.jsonError 500 "Failed to create persona") ∧
    ((create_model mInit uDev reqModelM1 AuditOutcome.ok).2.isSuccess =
        true ∧
      (create_model mInit uDev reqModelM1
          AuditOutcome.ok).1.models.map (fun m => m.temperature) =
        [some ratPointOne] ∧
      (create_model mInit uDev reqModelM1
          AuditOutcome.ok).1.versions.map (fun v => v.snapshot) =
        [MVConfig.createSnap none "claude-3" none none none none] ∧
      some ratPointOne ≠ (none : Option Rat)) := by
  decide

end QueryForge

